import Mathlib

set_option maxRecDepth 4000

/-!
Shallow embedding of the Dwarf session/event-relay core: the class `Dwarf` in
`src/lib/core.py` (message dispatcher, apply-context handler, `dwarf_api` gateway,
`reinitialize`) and the class `Range` in `src/lib/range.py` (address-range cache).

Python values that cross the message protocol are modelled by `PyVal`; Python dicts
by association lists with unique keys; a raised Python exception by `Except.error`
(the model discards partial mutations performed before an uncaught exception — the
claims below only inspect successful dispatches and the fact that a given input
raises).  `lib/hook.py`, `lib/context.py` and `lib/utils.py` are not under `src/`;
the definitions taken from the spec instead of source code say so in their doc
comments.
-/

/-- Python runtime values occurring in this protocol layer (None, bool, int, str,
list, dict with string keys).  Floats never occur in the modelled fragment. -/
inductive PyVal where
  | none
  | bool (b : Bool)
  | int (n : Int)
  | str (s : String)
  | list (xs : List PyVal)
  | dict (xs : List (String × PyVal))

/-- The Python exceptions the embedded code can raise. -/
inductive PyErr where
  | keyError
  | indexError
  | valueError
  | typeError
  | attributeError
deriving Repr, DecidableEq

/-- Explicit bind for `Except PyErr`, written out so proofs can destruct it. -/
def ebind {α β : Type} (x : Except PyErr α) (f : α → Except PyErr β) : Except PyErr β :=
  match x with
  | .error e => .error e
  | .ok v => f v

/-- Python dict lookup on an association list (keys are unique, first match). -/
def dictGet {β α : Type} [DecidableEq β] : List (β × α) → β → Option α
  | [], _ => Option.none
  | (k, v) :: rest, key => if k = key then some v else dictGet rest key

/-- Python `key in d`. -/
def dictMember {β α : Type} [DecidableEq β] (d : List (β × α)) (key : β) : Bool :=
  (dictGet d key).isSome

/-- Python `d[key] = v`: replace the binding in place if present, else append
(dict insertion order). -/
def dictSet {β α : Type} [DecidableEq β] : List (β × α) → β → α → List (β × α)
  | [], key, v => [(key, v)]
  | (k, w) :: rest, key, v =>
    if k = key then (key, v) :: rest else (k, w) :: dictSet rest key v

/-- Python `del d[key]` (the callers check membership first; on the unique-key
lists the model builds this removes the one binding). -/
def dictRemove {β α : Type} [DecidableEq β] : List (β × α) → β → List (β × α)
  | [], _ => []
  | (k, w) :: rest, key =>
    if k = key then dictRemove rest key else (k, w) :: dictRemove rest key

/-- Python `d.pop(key)` without a default: KeyError when absent. -/
def dictPopE {β α : Type} [DecidableEq β] (d : List (β × α)) (key : β) :
    Except PyErr (List (β × α)) :=
  if dictMember d key then .ok (dictRemove d key) else .error .keyError

/-- Python `list(d.keys())` in insertion order. -/
def dictKeys {β α : Type} (d : List (β × α)) : List β := d.map Prod.fst

/-- Value of one hex digit. -/
def hexDigitVal (c : Char) : Option Nat :=
  if '0' ≤ c ∧ c ≤ '9' then some (c.toNat - '0'.toNat)
  else if 'a' ≤ c ∧ c ≤ 'f' then some (c.toNat - 'a'.toNat + 10)
  else if 'A' ≤ c ∧ c ≤ 'F' then some (c.toNat - 'A'.toNat + 10)
  else Option.none

/-- Value of one decimal digit. -/
def decDigitVal (c : Char) : Option Nat :=
  if '0' ≤ c ∧ c ≤ '9' then some (c.toNat - '0'.toNat) else Option.none

/-- Fold a digit string in the given base; fails on a non-digit. -/
def digitsVal (dv : Char → Option Nat) (base : Nat) : List Char → Nat → Option Nat
  | [], acc => some acc
  | c :: cs, acc =>
    match dv c with
    | some d => digitsVal dv base cs (acc * base + d)
    | Option.none => Option.none

/-- Python `int(s)` on a plain decimal string with optional sign; ValueError
otherwise (whitespace stripping and underscores are outside the model). -/
def pyIntDec (s : String) : Except PyErr Int :=
  match s.data with
  | [] => .error .valueError
  | '-' :: cs =>
    match cs with
    | [] => .error .valueError
    | _ =>
      match digitsVal decDigitVal 10 cs 0 with
      | some n => .ok (-(n : Int))
      | Option.none => .error .valueError
  | cs =>
    match digitsVal decDigitVal 10 cs 0 with
    | some n => .ok (n : Int)
    | Option.none => .error .valueError

/-- Drop an optional 0x / 0X marker, as `int(s, 16)` accepts. -/
def dropHexMark : List Char → List Char
  | '0' :: 'x' :: cs => cs
  | '0' :: 'X' :: cs => cs
  | cs => cs

/-- Hex digits of `int(s, 16)` after the optional sign. -/
def pyIntHexCore (cs : List Char) : Option Nat :=
  match dropHexMark cs with
  | [] => Option.none
  | ds => digitsVal hexDigitVal 16 ds 0

/-- Python `int(s, 16)`: optional sign, optional 0x marker, hex digits. -/
def pyIntHex (s : String) : Except PyErr Int :=
  match s.data with
  | '-' :: cs =>
    match pyIntHexCore cs with
    | some n => .ok (-(n : Int))
    | Option.none => .error .valueError
  | cs =>
    match pyIntHexCore cs with
    | some n => .ok (n : Int)
    | Option.none => .error .valueError

/-- Modelled from the spec: `lib/utils.py` is not under `src/`.  The spec calls hook and
watcher keys "normalized pointers": a pointer given as a 0x-hex or decimal string is
converted to its numeric value, a number passes through, anything unparsable is 0. -/
def parse_ptr : PyVal → Int
  | .int n => n
  | .str s =>
    match s.data with
    | '0' :: 'x' :: _ =>
      (match pyIntHex s with
       | .ok n => n
       | .error _ => 0)
    | _ =>
      (match pyIntDec s with
       | .ok n => n
       | .error _ => 0)
  | _ => 0

/-- Lowercase hex digits of a natural number. -/
def natHexStr (n : Nat) : String := String.mk (Nat.toDigits 16 n)

/-- Python `hex(n)`. -/
def pyHex (n : Int) : String :=
  if n < 0 then "-0x" ++ natHexStr n.natAbs else "0x" ++ natHexStr n.natAbs

/-- Pairs of hex digits to byte values; fails on an odd count or a non-digit. -/
def hexPairs : List Char → Option (List Nat)
  | [] => some []
  | a :: b :: rest =>
    match hexDigitVal a, hexDigitVal b, hexPairs rest with
    | some x, some y, some r => some ((16 * x + y) :: r)
    | _, _, _ => Option.none
  | [_] => Option.none

/-- Python `binascii.unhexlify` (its Error is a ValueError). -/
def unhexlify (s : String) : Except PyErr (List Nat) :=
  match hexPairs s.data with
  | some bs => .ok bs
  | Option.none => .error .valueError

/-- Python `bytes.fromhex` (whitespace between pairs is outside the model). -/
def bytesFromHex (s : String) : Option (List Nat) := hexPairs s.data

mutual
/-- Python `str(v)`.  The rendering of nested containers is approximate (element
quoting is omitted); no modelled code path depends on it. -/
def pyStr : PyVal → String
  | .none => "None"
  | .bool true => "True"
  | .bool false => "False"
  | .int n => toString n
  | .str s => s
  | .list xs => "[" ++ pyStrList xs ++ "]"
  | .dict xs => "\x7b" ++ pyStrDict xs ++ "\x7d"

/-- Comma-joined rendering of list elements. -/
def pyStrList : List PyVal → String
  | [] => ""
  | [x] => pyStr x
  | x :: y :: xs => pyStr x ++ ", " ++ pyStrList (y :: xs)

/-- Comma-joined rendering of dict entries. -/
def pyStrDict : List (String × PyVal) → String
  | [] => ""
  | [(k, v)] => k ++ ": " ++ pyStr v
  | (k, v) :: y :: xs => k ++ ": " ++ pyStr v ++ ", " ++ pyStrDict (y :: xs)
end

/-- Python `v[key]` for a string key: dict lookup (KeyError when absent), TypeError
on every other value. -/
def pyGetItem (v : PyVal) (key : String) : Except PyErr PyVal :=
  match v with
  | .dict xs =>
    match dictGet xs key with
    | some r => .ok r
    | Option.none => .error .keyError
  | _ => .error .typeError

/-- Python `v == k` for a string literal k: only equal strings compare equal. -/
def pyEqStrV (v : PyVal) (k : String) : Bool :=
  match v with
  | .str s => s == k
  | _ => false

/-- Contiguous-sublist test used for Python substring membership. -/
def listHasInfix (needle : List Char) : List Char → Bool
  | [] => needle.isEmpty
  | c :: cs => needle.isPrefixOf (c :: cs) || listHasInfix needle cs

/-- Python `key in v`: key membership for dicts, element equality for lists,
substring for strings, TypeError otherwise. -/
def pyContains (v : PyVal) (key : String) : Except PyErr Bool :=
  match v with
  | .dict xs => .ok (dictMember xs key)
  | .list xs => .ok (xs.any (fun e => pyEqStrV e key))
  | .str s => .ok (listHasInfix key.data s.data)
  | _ => .error .typeError

/-- Python `len(v)`; TypeError on values without a length. -/
def pyLen (v : PyVal) : Except PyErr Nat :=
  match v with
  | .str s => .ok s.length
  | .list xs => .ok xs.length
  | .dict xs => .ok xs.length
  | _ => .error .typeError

/-- Python truthiness. -/
def pyTruthy : PyVal → Bool
  | .none => false
  | .bool b => b
  | .int n => decide (n ≠ 0)
  | .str s => decide (s ≠ "")
  | .list xs => !xs.isEmpty
  | .dict xs => !xs.isEmpty

/-- Python `v == n` for an int literal n (bools compare as 0/1, other types are
never equal to an int). -/
def pyEqInt (v : PyVal) (n : Int) : Bool :=
  match v with
  | .int m => m == n
  | .bool b => (cond b (1 : Int) 0) == n
  | _ => false

/-- JSON whitespace. -/
def jsonWs (c : Char) : Bool := c = ' ' || c = '\t' || c = '\n' || c = '\r'

/-- Skip leading JSON whitespace. -/
def jsonSkipWs : List Char → List Char
  | [] => []
  | c :: cs => if jsonWs c then jsonSkipWs cs else c :: cs

/-- JSON string body after the opening quote; returns the decoded string and the
rest.  Escapes \b, \f and \uXXXX are outside the model. -/
def jsonStrChars : List Char → Option (String × List Char)
  | [] => Option.none
  | c :: cs =>
    if c = '"' then some ("", cs)
    else if c = '\\' then
      match cs with
      | [] => Option.none
      | e :: cs2 =>
        let ec : Option Char :=
          if e = '"' then some '"'
          else if e = '\\' then some '\\'
          else if e = '/' then some '/'
          else if e = 'n' then some '\n'
          else if e = 't' then some '\t'
          else if e = 'r' then some '\r'
          else Option.none
        match ec with
        | some ch =>
          match jsonStrChars cs2 with
          | some (s, rest) => some (String.mk (ch :: s.data), rest)
          | Option.none => Option.none
        | Option.none => Option.none
    else
      match jsonStrChars cs with
      | some (s, rest) => some (String.mk (c :: s.data), rest)
      | Option.none => Option.none

/-- JSON integer literal (floats are outside the model: the modelled protocol only
carries integers). -/
def jsonNumber (cs : List Char) : Option (Int × List Char) :=
  let p : Bool × List Char :=
    match cs with
    | '-' :: rest => (true, rest)
    | _ => (false, cs)
  let ds := p.2.takeWhile (fun c => c.isDigit)
  let rest := p.2.dropWhile (fun c => c.isDigit)
  if ds.isEmpty then Option.none
  else
    match rest with
    | '.' :: _ => Option.none
    | 'e' :: _ => Option.none
    | 'E' :: _ => Option.none
    | _ =>
      match digitsVal decDigitVal 10 ds 0 with
      | some n => some (if p.1 then -(n : Int) else (n : Int), rest)
      | Option.none => Option.none

mutual
/-- Fueled recursive-descent JSON value parser. -/
def jsonVal : Nat → List Char → Option (PyVal × List Char)
  | 0, _ => Option.none
  | fuel + 1, cs =>
    match jsonSkipWs cs with
    | [] => Option.none
    | c :: rest =>
      if c = '"' then
        match jsonStrChars rest with
        | some (s, r) => some (.str s, r)
        | Option.none => Option.none
      else if c = '\x7b' then jsonObj fuel rest
      else if c = '[' then jsonArr fuel rest
      else if c = 'n' then
        match rest with
        | 'u' :: 'l' :: 'l' :: r => some (.none, r)
        | _ => Option.none
      else if c = 't' then
        match rest with
        | 'r' :: 'u' :: 'e' :: r => some (.bool true, r)
        | _ => Option.none
      else if c = 'f' then
        match rest with
        | 'a' :: 'l' :: 's' :: 'e' :: r => some (.bool false, r)
        | _ => Option.none
      else
        match jsonNumber (c :: rest) with
        | some (n, r) => some (.int n, r)
        | Option.none => Option.none

/-- JSON object after the opening brace. -/
def jsonObj : Nat → List Char → Option (PyVal × List Char)
  | 0, _ => Option.none
  | fuel + 1, cs =>
    match jsonSkipWs cs with
    | '\x7d' :: r => some (.dict [], r)
    | cs2 => jsonMembers fuel cs2 []

/-- JSON object members; duplicate keys keep the last value, as json.loads does. -/
def jsonMembers : Nat → List Char → List (String × PyVal) → Option (PyVal × List Char)
  | 0, _, _ => Option.none
  | fuel + 1, cs, acc =>
    match jsonSkipWs cs with
    | '"' :: r =>
      match jsonStrChars r with
      | some (k, r2) =>
        match jsonSkipWs r2 with
        | ':' :: r3 =>
          match jsonVal fuel r3 with
          | some (v, r4) =>
            match jsonSkipWs r4 with
            | ',' :: r5 => jsonMembers fuel r5 (dictSet acc k v)
            | '\x7d' :: r5 => some (.dict (dictSet acc k v), r5)
            | _ => Option.none
          | Option.none => Option.none
        | _ => Option.none
      | Option.none => Option.none
    | _ => Option.none

/-- JSON array after the opening bracket. -/
def jsonArr : Nat → List Char → Option (PyVal × List Char)
  | 0, _ => Option.none
  | fuel + 1, cs =>
    match jsonSkipWs cs with
    | ']' :: r => some (.list [], r)
    | cs2 => jsonElems fuel cs2 []

/-- JSON array elements. -/
def jsonElems : Nat → List Char → List PyVal → Option (PyVal × List Char)
  | 0, _, _ => Option.none
  | fuel + 1, cs, acc =>
    match jsonVal fuel cs with
    | some (v, r) =>
      match jsonSkipWs r with
      | ',' :: r2 => jsonElems fuel r2 (acc ++ [v])
      | ']' :: r2 => some (.list (acc ++ [v]), r2)
      | _ => Option.none
    | Option.none => Option.none
end

/-- Python `json.loads` for the fragment this protocol uses (objects, arrays,
strings, integers, booleans, null); a decode failure raises (JSONDecodeError is a
ValueError). -/
def json_loads (s : String) : Except PyErr PyVal :=
  match jsonVal (s.length + 2) s.data with
  | some (v, rest) =>
    match jsonSkipWs rest with
    | [] => .ok v
    | _ => .error .valueError
  | Option.none => .error .valueError

/-- Modelled from the spec: `lib/hook.py` is not under `src/`.  The spec describes
Hook as a variant over native / java / on-load / watcher kinds. -/
inductive HookType where
  | onload
  | native
  | java
  | watcher
deriving Repr, DecidableEq

/-- Modelled from the spec: `lib/hook.py` is not under `src/`.  A Hook record carries
placement (numeric pointer or symbolic input), original bytes (native only), break
condition and logic, the internal flag (hooks installed by the system itself, never
surfaced to the user) and debug symbol metadata; `core.py` populates it through
plain setters and reads the flag back through the `internal_hook` accessor. -/
structure Hook where
  hook_type : HookType
  ptr : Int := 0
  input : String := ""
  bytes : List Nat := []
  condition : PyVal := .none
  logic : PyVal := .none
  internalHook : Bool := false
  debug_symbol : PyVal := .none

/-- Python accessor `Hook.get_ptr`. -/
def Hook.get_ptr (h : Hook) : Int := h.ptr

/-- Python accessor `Hook.get_input`. -/
def Hook.get_input (h : Hook) : String := h.input

/-- Python property `Hook.internal_hook` (reads the internalHook attribute). -/
def Hook.internal_hook (h : Hook) : Bool := h.internalHook

/-- Modelled from the spec: `lib/context.py` is not under `src/`.  A Context is a
per-thread snapshot built from the register/variable JSON of a hook hit; the
dispatcher only constructs and stores it. -/
structure Context where
  data : PyVal

/-- The condition/logic staging dict built by the user-facing "add hook" request
(constructed outside `src/`, always with both keys). -/
structure PendingArgs where
  condition : PyVal
  logic : PyVal

/-- The mutable state of the `Dwarf` object (`src/lib/core.py` __init__).  The qt
parent, kernel helper and keystone flag carry no dispatcher-relevant state and are
omitted.  `process`, `script` and `device` model the is-None status of the
corresponding handles. -/
structure DwarfState where
  plugins : List String
  pid : Int
  package : Option String
  process : Option Unit
  script : Option Unit
  spawned : Bool
  resumed : Bool
  java_available : PyVal
  device : Option Unit
  hooks : List (Int × Hook)
  native_on_loads : List (String × Hook)
  java_on_loads : List (String × Hook)
  java_hooks : List (String × Hook)
  watchers : List (String × Hook)
  temporary_input : String
  native_pending_args : Option PendingArgs
  java_pending_args : Option PendingArgs
  arch : PyVal
  pointer_size : PyVal
  contexts : List (String × Context)
  context_tid : PyVal
  platform : PyVal

/-- Fresh `Dwarf` state as built by `__init__` with no device (plugins as found by
the plugin directory scan are empty here). -/
def initState : DwarfState where
  plugins := []
  pid := 0
  package := Option.none
  process := Option.none
  script := Option.none
  spawned := false
  resumed := false
  java_available := PyVal.bool false
  device := Option.none
  hooks := []
  native_on_loads := []
  java_on_loads := []
  java_hooks := []
  watchers := []
  temporary_input := ""
  native_pending_args := Option.none
  java_pending_args := Option.none
  arch := PyVal.str ""
  pointer_size := PyVal.int 0
  contexts := []
  context_tid := PyVal.int 0
  platform := PyVal.str ""

/-- Observable effects of the relay: emitted qt signals, diagnostics printed to
stdout, channel sends (script.post) and remote api invocations. -/
inductive Event where
  | printed (s : String)
  | scriptPost (tid : String)
  | apiInvoke (tid : PyVal) (api : String) (args : PyVal)
  | backTrace (v : PyVal)
  | logEvent (s : String)
  | logToConsole (s : String)
  | enumerateJavaClassesStart
  | enumerateJavaClassesMatch (s : String)
  | enumerateJavaClassesComplete
  | enumerateJavaMethodsComplete (cls : String) (v : PyVal)
  | uiEnableKernel
  | uiAddJavaOnLoadMenu
  | addJavaHook (h : Hook)
  | addJavaOnLoadHook (h : Hook)
  | addNativeHook (h : Hook)
  | addNativeOnLoadHook (h : Hook)
  | deleteHook (parts : List String)
  | hitJavaOnLoad (s : String)
  | javaTraceEvent (parts : List String)
  | hitNativeOnLoad (name base : String)
  | threadResumed (t : Int)
  | requestJsThreadResume (t : Int)
  | deviceResume (pid : Int)
  | setModules (v : PyVal)
  | setRanges (v : PyVal)
  | applyContext (v : PyVal)
  | contextChanged (prop val : String)
  | setDataRaw (key : String) (bs : List Nat)
  | setDataPlain (key val : String)
  | watcherAdded (p : String) (flags : Int)
  | watcherRemoved (p : String)
  | memoryScanResult (v : PyVal)

/-- The injected payload as seen through `script.exports.api`: an opaque
collaborator answering remote calls (or raising). -/
structure ScriptEnv where
  apiCall : PyVal → String → PyVal → Except PyErr PyVal

/-- Rendering of a caught exception for `log_event(str(e))`. -/
def pyErrStr : PyErr → String
  | .keyError => "KeyError"
  | .indexError => "IndexError"
  | .valueError => "ValueError"
  | .typeError => "TypeError"
  | .attributeError => "AttributeError"

/-- The tid-0 loop of `dwarf_api`: for each live context key post a routing
notification, and when releasing convert the key with `int(...)` and invoke the
release api on it.  Errors carry the events already performed (the posts happened
before the exception). -/
def apiLoop (env : ScriptEnv) (api : String) (isRel : Bool) :
    List String → Except (PyErr × List Event) (List Event)
  | [] => .ok []
  | k :: ks =>
    let ev := Event.scriptPost k
    if isRel then
      match pyIntDec k with
      | .error e => .error (e, [ev])
      | .ok n =>
        let inv := Event.apiInvoke (.int n) api (.list [.int n])
        match env.apiCall (.int n) api (.list [.int n]) with
        | .error e => .error (e, [ev, inv])
        | .ok _ =>
          match apiLoop env api isRel ks with
          | .ok evs => .ok (ev :: inv :: evs)
          | .error (e, evs) => .error (e, ev :: inv :: evs)
    else
      match apiLoop env api isRel ks with
      | .ok evs => .ok (ev :: evs)
      | .error (e, evs) => .error (e, ev :: evs)

/-- `Dwarf.dwarf_api` (`src/lib/core.py`): the single RPC gateway.  Returns the
api result (None when the call was swallowed) and the performed effects.  Note
that the first half of the source guard, `self.pid and self._pid == 0`, can never
be truthy and is kept verbatim; the Python for-loop variable leaks, so the final
invocation after a non-release tid-0 loop uses the last context key. -/
def dwarf_api (env : ScriptEnv) (st : DwarfState) (api : String) (args : PyVal)
    (tid : PyVal) : Option PyVal × List Event :=
  if (decide (st.pid ≠ 0) && decide (st.pid = 0)) || st.process.isNone then
    (Option.none, [])
  else
    let isRel := api == "release"
    let tid := if !isRel && pyEqInt tid 0 then st.context_tid else tid
    let args := match args with
      | PyVal.none => PyVal.none
      | PyVal.list xs => PyVal.list xs
      | v => PyVal.list [v]
    if st.script.isNone then (Option.none, [])
    else
      if pyEqInt tid 0 then
        match apiLoop env api isRel (dictKeys st.contexts) with
        | .error (e, evs) => (Option.none, evs ++ [Event.logEvent (pyErrStr e)])
        | .ok evs =>
          if isRel then (Option.none, evs)
          else
            let tid2 := match (dictKeys st.contexts).getLast? with
              | some k => PyVal.str k
              | Option.none => tid
            let inv := Event.apiInvoke tid2 api args
            match env.apiCall tid2 api args with
            | .ok v => (some v, evs ++ [inv])
            | .error e => (Option.none, evs ++ [inv, Event.logEvent (pyErrStr e)])
      else
        let ev := Event.scriptPost (pyStr tid)
        let inv := Event.apiInvoke tid api args
        match env.apiCall tid api args with
        | .ok v => (some v, [ev, inv])
        | .error e => (Option.none, [ev, inv, Event.logEvent (pyErrStr e)])

/-- `Dwarf.resume_proc`: resume a spawned-and-not-resumed process once.  A missing
device handle makes `self.device.resume` raise (AttributeError on None); the
engine-level InvalidOperationError race is swallowed and not modelled. -/
def resume_proc (st : DwarfState) : Except PyErr (DwarfState × List Event) :=
  if st.spawned && !st.resumed then
    match st.device with
    | Option.none => .error .attributeError
    | some _ => .ok ({st with resumed := true}, [Event.deviceResume st.pid])
  else .ok (st, [])

/-- Python `parts[i]`, IndexError out of range. -/
def idx (parts : List String) (i : Nat) : Except PyErr String :=
  match parts.get? i with
  | some s => .ok s
  | Option.none => .error .indexError

/-- Python `%d` formatting of the thread id in the hook-hit log line: ints and
bools format, anything else raises TypeError. -/
def formatD (v : PyVal) : Except PyErr String :=
  match v with
  | .int n => .ok (toString n)
  | .bool b => .ok (toString (cond b (1 : Int) 0))
  | _ => .error .typeError

/-- The name and symbol text computed by `Dwarf._on_apply_context` for a hook hit
(reads `context_data['ptr']`, and the pc symbol when present). -/
def hitNameSym (d ctxv : PyVal) : Except PyErr (PyVal × String) :=
  ebind (pyContains ctxv "pc") (fun hasPc =>
  if hasPc then
    ebind (pyGetItem d "ptr") (fun name =>
    ebind (pyGetItem ctxv "pc") (fun pcv =>
    ebind (pyContains pcv "symbol") (fun hasSym =>
    if hasSym then
      ebind (pyGetItem pcv "symbol") (fun symv =>
      ebind (pyGetItem symv "name") (fun nmv =>
      match nmv with
      | PyVal.none => .ok (name, "")
      | _ =>
        ebind (pyGetItem symv "moduleName") (fun mn =>
        match mn, nmv with
        | .str ms, .str ns => .ok (name, ms ++ " - " ++ ns)
        | _, _ => .error .typeError)))
    else .ok (name, ""))))
  else
    ebind (pyGetItem d "ptr") (fun name => .ok (name, "")))

/-- The non-initial branch of `Dwarf._on_apply_context`: when the data carries a
context, build a Context, store it under `str(tid)`, and log the hook-hit line when
the reason is 0. -/
def applyContextHit (st : DwarfState) (d : PyVal) : Except PyErr (DwarfState × List Event) :=
  ebind (pyContains d "context") (fun hasCtx =>
  if hasCtx then
    ebind (pyGetItem d "context") (fun ctxv =>
    ebind (pyGetItem d "tid") (fun tidv =>
    let st2 := {st with contexts := dictSet st.contexts (pyStr tidv) (Context.mk ctxv)}
    ebind (hitNameSym d ctxv) (fun ns =>
    ebind (pyGetItem d "reason") (fun r2 =>
    if pyEqInt r2 0 then
      ebind (formatD tidv) (fun tstr =>
      .ok (st2, [Event.logEvent ("hook " ++ pyStr ns.1 ++ " " ++ ns.2 ++
                                " @thread := " ++ tstr)]))
    else .ok (st2, [])))))
  else .ok (st, []))

/-- `Dwarf._on_apply_context` (`src/lib/core.py`): the slot connected to the
onApplyContext signal.  Reason -1 is the one-time post-attach handshake capturing
arch / platform / pointer size / java availability; otherwise a hook hit stores a
context, and the first non-initial message since reinitialization sets the active
context tid. -/
def on_apply_context (st : DwarfState) (d : PyVal) : Except PyErr (DwarfState × List Event) :=
  ebind (pyGetItem d "reason") (fun reason =>
  if pyEqInt reason (-1) then
    ebind (pyGetItem d "arch") (fun archv =>
    ebind (pyGetItem d "platform") (fun platv =>
    ebind (pyGetItem d "pointerSize") (fun psize =>
    ebind (pyGetItem d "java") (fun javav =>
    let st2 := {st with arch := archv, platform := platv, pointer_size := psize,
                        java_available := javav}
    let evs := [Event.logEvent ("injected into := " ++ toString st2.pid)]
    let evs := if pyTruthy javav then evs ++ [Event.uiAddJavaOnLoadMenu] else evs
    .ok (st2, evs)))))
  else
    ebind (applyContextHit st d) (fun p =>
    if pyEqInt p.1.context_tid 0 then
      ebind (pyGetItem d "tid") (fun tidv =>
      .ok ({p.1 with context_tid := tidv}, p.2))
    else .ok p))

/-- Dispatcher branch for `set_context`: decode the JSON, republish embedded
modules / ranges / backtrace, then emit apply-context, whose directly connected
slot runs synchronously. -/
def handle_set_context (st : DwarfState) (p1 : String) : Except PyErr (DwarfState × List Event) :=
  ebind (json_loads p1) (fun d =>
  ebind (pyContains d "modules") (fun hasM =>
  ebind (if hasM then ebind (pyGetItem d "modules") (fun v => .ok [Event.setModules v])
         else .ok []) (fun e1 =>
  ebind (pyContains d "ranges") (fun hasR =>
  ebind (if hasR then ebind (pyGetItem d "ranges") (fun v => .ok [Event.setRanges v])
         else .ok []) (fun e2 =>
  ebind (pyContains d "backtrace") (fun hasB =>
  ebind (if hasB then ebind (pyGetItem d "backtrace") (fun v => .ok [Event.backTrace v])
         else .ok []) (fun e3 =>
  ebind (on_apply_context st d) (fun p =>
  .ok (p.1, e1 ++ e2 ++ e3 ++ [Event.applyContext d] ++ p.2)))))))))

/-- Dispatcher branch for `hook_java_callback`. -/
def handle_hook_java (st : DwarfState) (parts : List String) :
    Except PyErr (DwarfState × List Event) :=
  let p1 := parts.getD 1 ""
  let base : Hook := { hook_type := .java, ptr := 1, input := p1 }
  let hs : Hook × DwarfState :=
    match st.java_pending_args with
    | some pa => ({base with condition := pa.condition, logic := pa.logic},
                  {st with java_pending_args := Option.none})
    | Option.none => (base, st)
  .ok ({hs.2 with java_hooks := dictSet hs.2.java_hooks hs.1.get_input hs.1},
       [Event.addJavaHook hs.1])

/-- Dispatcher branch for `hook_java_on_load_callback`. -/
def handle_hook_java_on_load (st : DwarfState) (parts : List String) :
    Except PyErr (DwarfState × List Event) :=
  let p1 := parts.getD 1 ""
  let h : Hook := { hook_type := .java, ptr := 0, input := p1 }
  .ok ({st with java_on_loads := dictSet st.java_on_loads p1 h},
       [Event.addJavaOnLoadHook h])

/-- Dispatcher branch for `hook_native_callback`: parse the pointer and original
bytes, stamp condition/logic/internal flag/debug symbol, clear the staged input,
and register plus publish only when the hook is not internal. -/
def handle_hook_native (st : DwarfState) (parts : List String) :
    Except PyErr (DwarfState × List Event) :=
  ebind (pyIntHex (parts.getD 1 "")) (fun ptr =>
  ebind (idx parts 2) (fun p2 =>
  ebind (unhexlify p2) (fun bs =>
  ebind (idx parts 4) (fun p4 =>
  ebind (idx parts 3) (fun p3 =>
  ebind (idx parts 5) (fun p5 =>
  ebind (idx parts 6) (fun p6 =>
  ebind (json_loads p6) (fun dbg =>
  let h : Hook := { hook_type := .native, ptr := ptr, input := st.temporary_input,
                    bytes := bs, condition := .str p4, logic := .str p3,
                    internalHook := p5 == "true", debug_symbol := dbg }
  let st2 := {st with temporary_input := "", native_pending_args := Option.none}
  if h.internal_hook then .ok (st2, [])
  else .ok ({st2 with hooks := dictSet st2.hooks h.get_ptr h},
            [Event.addNativeHook h])))))))))

/-- Dispatcher branch for `hook_native_on_load_callback`. -/
def handle_hook_native_on_load (st : DwarfState) (parts : List String) :
    Except PyErr (DwarfState × List Event) :=
  let p1 := parts.getD 1 ""
  let h : Hook := { hook_type := .onload, ptr := 0, input := p1 }
  .ok ({st with native_on_loads := dictSet st.native_on_loads p1 h},
       [Event.addNativeOnLoadHook h])

/-- Dispatcher branch for `hook_deleted`: pop from the matching registry (KeyError
when the key is absent) and republish the deletion. -/
def handle_hook_deleted (st : DwarfState) (parts : List String) :
    Except PyErr (DwarfState × List Event) :=
  if parts.getD 1 "" = "java" then
    ebind (idx parts 2) (fun p2 =>
    ebind (dictPopE st.java_hooks p2) (fun m =>
    .ok ({st with java_hooks := m}, [Event.deleteHook parts])))
  else if parts.getD 1 "" = "native_on_load" then
    ebind (idx parts 2) (fun p2 =>
    ebind (dictPopE st.native_on_loads p2) (fun m =>
    .ok ({st with native_on_loads := m}, [Event.deleteHook parts])))
  else if parts.getD 1 "" = "java_on_load" then
    ebind (idx parts 2) (fun p2 =>
    ebind (dictPopE st.java_on_loads p2) (fun m =>
    .ok ({st with java_on_loads := m}, [Event.deleteHook parts])))
  else
    ebind (idx parts 2) (fun p2 =>
    ebind (dictPopE st.hooks (parse_ptr (.str p2))) (fun m =>
    .ok ({st with hooks := m}, [Event.deleteHook parts])))

/-- Dispatcher branch for `release`: log, delete the context if present, publish
thread-resumed with the int-converted thread id. -/
def handle_release (st : DwarfState) (parts : List String) :
    Except PyErr (DwarfState × List Event) :=
  ebind (pyIntDec (parts.getD 1 "")) (fun n =>
  .ok (if dictMember st.contexts (parts.getD 1 "") then
         {st with contexts := dictRemove st.contexts (parts.getD 1 "")}
       else st,
       [Event.logEvent ("releasing := " ++ parts.getD 1 ""), Event.threadResumed n]))

/-- Dispatcher branch for `release_js`: the loop-back — emit the resume request,
whose directly connected slot re-invokes the release through `dwarf_api`. -/
def handle_release_js (env : ScriptEnv) (st : DwarfState) (parts : List String) :
    Except PyErr (DwarfState × List Event) :=
  ebind (pyIntDec (parts.getD 1 "")) (fun n =>
  let r := dwarf_api env st "release" (.int n) (.int n)
  .ok (st, Event.requestJsThreadResume n :: r.2))

/-- Dispatcher branch for `watcher_added`. -/
def handle_watcher_added (st : DwarfState) (parts : List String) :
    Except PyErr (DwarfState × List Event) :=
  let ptr := parse_ptr (.str (parts.getD 1 ""))
  let hexPtr := pyHex ptr
  ebind (idx parts 2) (fun p2 =>
  ebind (pyIntDec p2) (fun flags =>
  ebind (idx parts 3) (fun p3 =>
  ebind (json_loads p3) (fun dbg =>
  let h : Hook := { hook_type := .watcher, ptr := ptr, logic := .int flags,
                    debug_symbol := dbg }
  .ok ({st with watchers := dictSet st.watchers hexPtr h},
       [Event.watcherAdded hexPtr flags])))))

/-- Dispatcher branch for `watcher_removed`: pop by normalized hex pointer
(KeyError when absent). -/
def handle_watcher_removed (st : DwarfState) (parts : List String) :
    Except PyErr (DwarfState × List Event) :=
  let hexPtr := pyHex (parse_ptr (.str (parts.getD 1 "")))
  ebind (dictPopE st.watchers hexPtr) (fun m =>
  .ok ({st with watchers := m}, [Event.watcherRemoved hexPtr]))

/-- Dispatcher branch for `watcher` (a hit notification): log only. -/
def handle_watcher (st : DwarfState) (parts : List String) :
    Except PyErr (DwarfState × List Event) :=
  ebind (json_loads (parts.getD 1 "")) (fun exc =>
  ebind (pyGetItem exc "memory") (fun mem1 =>
  ebind (pyGetItem mem1 "operation") (fun op =>
  ebind (pyGetItem exc "memory") (fun mem2 =>
  ebind (pyGetItem mem2 "address") (fun addr =>
  ebind (idx parts 2) (fun p2 =>
  .ok (st, [Event.logEvent ("watcher hit op " ++ pyStr op ++ " address " ++
                            pyStr addr ++ " @thread := " ++ p2)])))))))

/-- Dispatcher branch for `set_data`: raw when an out-of-band buffer is attached
and truthy, plain otherwise. -/
def handle_set_data (st : DwarfState) (parts : List String) (data : Option (List Nat)) :
    Except PyErr (DwarfState × List Event) :=
  let plain : Except PyErr (DwarfState × List Event) :=
    ebind (idx parts 2) (fun p2 =>
    .ok (st, [Event.setDataPlain (parts.getD 1 "") p2]))
  match data with
  | some bs => if !bs.isEmpty then .ok (st, [Event.setDataRaw (parts.getD 1 "") bs])
               else plain
  | Option.none => plain

/-- Worker for `pySplit`, consuming one character of fuel per input character. -/
def pySplitAux (sep : List Char) : Nat → List Char → List Char → List String
  | _, cur, [] => [String.mk cur.reverse]
  | 0, cur, cs => [String.mk (cur.reverse ++ cs)]
  | fuel + 1, cur, c :: cs =>
    if sep.isPrefixOf (c :: cs) then
      String.mk cur.reverse :: pySplitAux sep fuel [] (List.drop sep.length (c :: cs))
    else pySplitAux sep fuel (c :: cur) cs

/-- Python `s.split(sep)` for a non-empty separator: non-overlapping left-to-right
splits, keeping empty fields (so a lone separator yields two empty strings). -/
def pySplit (s sep : String) : List String :=
  pySplitAux sep.data (s.data.length + 1) [] s.data

/-- An inbound channel message: the optional payload entry of the message dict and
the optional out-of-band data buffer. -/
structure PyMessage where
  payload : Option String
  data : Option (List Nat)

/-- The tag dispatch of `Dwarf._on_message` once the payload has been split on
`:::` into at least two fields. -/
def dispatch (env : ScriptEnv) (st : DwarfState) (what : String) (parts : List String)
    (data : Option (List Nat)) : Except PyErr (DwarfState × List Event) :=
  if parts.getD 0 "" = "api_ping_timeout" then
    match st.script with
    | Option.none => .error .attributeError
    | some _ => .ok (st, [Event.scriptPost (parts.getD 1 "")])
  else if parts.getD 0 "" = "backtrace" then
    ebind (json_loads (parts.getD 1 "")) (fun v => .ok (st, [Event.backTrace v]))
  else if parts.getD 0 "" = "class_loader_loading_class" then
    ebind (idx parts 2) (fun p2 =>
    .ok (st, [Event.logEvent ("@thread " ++ (parts.getD 1 "") ++ " loading class := " ++ p2)]))
  else if parts.getD 0 "" = "enumerate_java_classes_start" then
    .ok (st, [Event.enumerateJavaClassesStart])
  else if parts.getD 0 "" = "enumerate_java_classes_match" then
    .ok (st, [Event.enumerateJavaClassesMatch (parts.getD 1 "")])
  else if parts.getD 0 "" = "enumerate_java_classes_complete" then
    .ok (st, [Event.enumerateJavaClassesComplete])
  else if parts.getD 0 "" = "enumerate_java_methods_complete" then
    ebind (idx parts 2) (fun p2 =>
    ebind (json_loads p2) (fun v =>
    .ok (st, [Event.enumerateJavaMethodsComplete (parts.getD 1 "") v])))
  else if parts.getD 0 "" = "ftrace" then
    .error .attributeError
  else if parts.getD 0 "" = "enable_kernel" then
    .ok (st, [Event.uiEnableKernel])
  else if parts.getD 0 "" = "hook_java_callback" then
    handle_hook_java st parts
  else if parts.getD 0 "" = "hook_java_on_load_callback" then
    handle_hook_java_on_load st parts
  else if parts.getD 0 "" = "hook_native_callback" then
    handle_hook_native st parts
  else if parts.getD 0 "" = "hook_native_on_load_callback" then
    handle_hook_native_on_load st parts
  else if parts.getD 0 "" = "hook_deleted" then
    handle_hook_deleted st parts
  else if parts.getD 0 "" = "java_on_load_callback" then
    ebind (idx parts 2) (fun p2 =>
    .ok (st, [Event.logEvent ("Hook java onload " ++ (parts.getD 1 "") ++ " @thread := " ++ p2),
              Event.hitJavaOnLoad (parts.getD 1 "")]))
  else if parts.getD 0 "" = "java_trace" then
    .ok (st, [Event.javaTraceEvent parts])
  else if parts.getD 0 "" = "log" then
    .ok (st, [Event.logToConsole (parts.getD 1 "")])
  else if parts.getD 0 "" = "native_on_load_callback" then
    ebind (idx parts 3) (fun p3 =>
    ebind (idx parts 2) (fun p2 =>
    .ok (st, [Event.logEvent ("Hook native onload " ++ (parts.getD 1 "") ++ " @thread := " ++ p3),
              Event.hitNativeOnLoad (parts.getD 1 "") p2])))
  else if parts.getD 0 "" = "native_on_load_module_loading" then
    ebind (idx parts 2) (fun p2 =>
    .ok (st, [Event.logEvent ("@thread " ++ (parts.getD 1 "") ++ " loading module := " ++ p2)]))
  else if parts.getD 0 "" = "new_thread" then
    ebind (idx parts 2) (fun p2 =>
    .ok (st, [Event.logEvent ("@thread " ++ (parts.getD 1 "") ++
              " starting new thread with target fn := " ++ p2)]))
  else if parts.getD 0 "" = "release" then
    handle_release st parts
  else if parts.getD 0 "" = "resume" then
    if !st.resumed then resume_proc st else .ok (st, [])
  else if parts.getD 0 "" = "release_js" then
    handle_release_js env st parts
  else if parts.getD 0 "" = "set_context" then
    handle_set_context st (parts.getD 1 "")
  else if parts.getD 0 "" = "set_context_value" then
    ebind (idx parts 2) (fun p2 =>
    .ok (st, [Event.contextChanged (parts.getD 1 "") p2]))
  else if parts.getD 0 "" = "set_data" then
    handle_set_data st parts data
  else if parts.getD 0 "" = "unhandled_exception" then
    .ok (st, [])
  else if parts.getD 0 "" = "update_modules" then
    ebind (idx parts 2) (fun p2 =>
    ebind (json_loads p2) (fun v =>
    .ok (st, [Event.setModules v])))
  else if parts.getD 0 "" = "update_ranges" then
    ebind (idx parts 2) (fun p2 =>
    ebind (json_loads p2) (fun v =>
    .ok (st, [Event.setRanges v])))
  else if parts.getD 0 "" = "watcher" then
    handle_watcher st parts
  else if parts.getD 0 "" = "watcher_added" then
    handle_watcher_added st parts
  else if parts.getD 0 "" = "watcher_removed" then
    handle_watcher_removed st parts
  else if parts.getD 0 "" = "memoryscan_result" then
    if (parts.getD 1 "") = "" then .ok (st, [Event.memoryScanResult (.list [])])
    else ebind (json_loads (parts.getD 1 "")) (fun v => .ok (st, [Event.memoryScanResult v]))
  else
    .ok (st, [Event.printed ("unknown message: " ++ what)])

/-- `Dwarf._on_message` (`src/lib/core.py`): messages without a payload envelope or
with fewer than two `:::`-separated fields are printed and dropped; otherwise the
tag is dispatched.  The UI event-queue pump has no protocol-visible effect. -/
def on_message (env : ScriptEnv) (st : DwarfState) (msg : PyMessage) :
    Except PyErr (DwarfState × List Event) :=
  match msg.payload with
  | Option.none => .ok (st, [Event.printed "payload: "])
  | some what =>
    let parts := pySplit what ":::"
    if parts.length < 2 then .ok (st, [Event.printed what])
    else dispatch env st what parts msg.data

/-- `Dwarf.reinitialize` (`src/lib/core.py`).  The plugin list is cleared and then
refilled by `reload_plugins()`, modelled by the availablePlugins parameter.  Note
what the source does NOT reset: `self.contexts`, `self.watchers`, `self._arch`,
`self._pointer_size` and `self._platform` are left untouched, and `self._device`
is set to None. -/
def reinitialize (availablePlugins : List String) (st : DwarfState) : DwarfState :=
  { st with
    plugins := availablePlugins,
    pid := 0, package := Option.none, process := Option.none, script := Option.none,
    spawned := false, resumed := false, java_available := PyVal.bool false,
    device := Option.none,
    hooks := [], native_on_loads := [], java_on_loads := [], java_hooks := [],
    temporary_input := "", native_pending_args := Option.none,
    java_pending_args := Option.none,
    context_tid := PyVal.int 0 }

/-- The 33 tags recognized by the dispatcher. -/
def knownTags : List String :=
  ["api_ping_timeout", "backtrace", "class_loader_loading_class",
   "enumerate_java_classes_start", "enumerate_java_classes_match",
   "enumerate_java_classes_complete", "enumerate_java_methods_complete",
   "ftrace", "enable_kernel", "hook_java_callback", "hook_java_on_load_callback",
   "hook_native_callback", "hook_native_on_load_callback", "hook_deleted",
   "java_on_load_callback", "java_trace", "log", "native_on_load_callback",
   "native_on_load_module_loading", "new_thread", "release", "resume",
   "release_js", "set_context", "set_context_value", "set_data",
   "unhandled_exception", "update_modules", "update_ranges", "watcher",
   "watcher_added", "watcher_removed", "memoryscan_result"]

/-- Observable interactions of `Range.init_with_address` with its collaborators:
the getRange RPC, the read_memory bulk read and the live-hooks query. -/
inductive REvent where
  | getRange (addr : Int)
  | readMemory (base size : Int)
  | hooksQuery
deriving Repr, DecidableEq

/-- The collaborators of `Range` (`self.dwarf`): `dwarf_api('getRange', a)` never
raises (the gateway converts exceptions to None, so the except branch that would
return 1 is unreachable and the failure surfaces as None here); `read_memory`
returns the buffer or None; the injected script's `exports.hooks()` returns a JSON
string. -/
structure RangeEnv where
  getRange : Int → PyVal
  readMemory : Int → Int → Option (List Nat)
  hooksJson : String

/-- `Range.SOURCE_TARGET`. -/
def SOURCE_TARGET : Nat := 0

/-- Fields of a `Range` instance (`src/lib/range.py` __init__ / invalidate). -/
structure RangeState where
  source : Nat := SOURCE_TARGET
  base : Int := 0
  size : Int := 0
  tail : Int := 0
  data : Option (List Nat) := some []
  start_address : Int := 0
  start_offset : Int := 0

/-- Python bytearray slice assignment `d[off : off + len(org)] = org` for the
non-negative offsets this code produces: when the window reaches past the end the
buffer grows, exactly as the slice assignment does. -/
def sliceAssign (d : List Nat) (off : Nat) (org : List Nat) : List Nat :=
  d.take off ++ org ++ d.drop (off + org.length)

/-- Contiguous read `d[off : off + n]`. -/
def listSlice (d : List Nat) (off n : Nat) : List Nat := (d.drop off).take n

/-- `Range.patch_bytes`: decode the hook's original bytes from hex and overwrite
the cached buffer at the offset.  `bytearray(None)` and `bytes.fromhex` on a
non-string raise TypeError; a malformed hex string raises ValueError. -/
def patch_bytes (r : RangeState) (bs : PyVal) (offset : Int) : Except PyErr RangeState :=
  match r.data with
  | Option.none => .error .typeError
  | some d =>
    match bs with
    | .str s =>
      match bytesFromHex s with
      | some org => .ok {r with data := some (sliceAssign d offset.toNat org)}
      | Option.none => .error .valueError
    | _ => .error .typeError

/-- One iteration of the hook-patching loop of `Range.init_with_address`: skip
java hooks (pointer 1) and hooks without original bytes, strip the thumb bit of an
odd address, and patch when the stripped address lies strictly inside the range. -/
def patchOne (r : RangeState) (hook : PyVal) : Except PyErr RangeState :=
  ebind (pyGetItem hook "nativePtr") (fun np =>
  if parse_ptr np ≠ 1 then
    ebind (pyGetItem hook "bytes") (fun bs =>
    if pyTruthy bs then
      let a0 := parse_ptr np
      let a := if a0 % 2 ≠ 0 then a0 - 1 else a0
      if r.base < a ∧ a < r.tail then patch_bytes r bs (a - r.base)
      else .ok r
    else .ok r)
  else .ok r)

/-- The `for key in list(hooks.keys())` loop over the live hook registry (JSON
object keys are unique, so the lookup per key yields the entry's value). -/
def patchHooks (r : RangeState) : List (String × PyVal) → Except PyErr RangeState
  | [] => .ok r
  | (_, hook) :: rest =>
    ebind (patchOne r hook) (fun r2 => patchHooks r2 rest)

/-- The status checks at the end of `Range.init_with_address`: a None buffer is
replaced by an empty one with status 1, an empty buffer is status 1, otherwise 0. -/
def rangeFinish (r : RangeState) (evs : List REvent) :
    Except PyErr (Int × RangeState × List REvent) :=
  match r.data with
  | Option.none => .ok (1, {r with data := some []}, evs)
  | some d => if d.isEmpty then .ok (1, r, evs) else .ok (0, r, evs)

/-- The body of `Range.init_with_address` after the request address has been
normalized into `start_address`: short-circuit to an offset update (status -1)
when the address lies strictly between the cached base and tail; otherwise, for
the target source, look up the region (status 1 when the lookup yields None or an
empty dict), apply the base override and length clamp, and when data is required
read the region bytes and patch every in-range native hook before the final
status checks.  The engine reports `size` as an int; a non-int would raise
TypeError at its first arithmetic use and is modelled as an upfront TypeError. -/
def init_started (env : RangeEnv) (r : RangeState) (length : Int) (base : Int)
    (require_data : Bool) : Except PyErr (Int × RangeState × List REvent) :=
  if r.base > 0 ∧ r.base < r.start_address ∧ r.start_address < r.tail then
    .ok (-1, {r with start_offset := r.start_address - r.base}, [])
  else if r.source = SOURCE_TARGET then
    match env.getRange r.start_address with
    | PyVal.none => .ok (1, r, [REvent.getRange r.start_address])
    | rangev =>
      ebind (pyLen rangev) (fun len =>
      if len = 0 then .ok (1, r, [REvent.getRange r.start_address])
      else
        ebind (pyGetItem rangev "base") (fun bv =>
        ebind (match bv with
               | .str s => pyIntHex s
               | _ => (.error .typeError : Except PyErr Int)) (fun b0 =>
        let r := {r with base := b0}
        let r := if base > 0 then {r with base := base} else r
        ebind (pyGetItem rangev "size") (fun sv =>
        ebind (match sv with
               | .int n => (.ok n : Except PyErr Int)
               | _ => .error .typeError) (fun sz0 =>
        let sz := if 0 < length ∧ length < sz0 then length else sz0
        let r := {r with size := sz, tail := r.base + sz,
                         start_offset := r.start_address - r.base}
        if require_data then
          let r := {r with data := env.readMemory r.base r.size}
          ebind (json_loads env.hooksJson) (fun hooksv =>
          ebind (match hooksv with
                 | .dict xs => (.ok xs : Except PyErr (List (String × PyVal)))
                 | _ => .error .attributeError) (fun hs =>
          ebind (patchHooks r hs) (fun r2 =>
          rangeFinish r2 [REvent.getRange r.start_address,
                          REvent.readMemory r.base r.size, REvent.hooksQuery])))
        else rangeFinish r [REvent.getRange r.start_address])))))
  else rangeFinish r []

/-- `Range.init_with_address` (`src/lib/range.py`): normalize the request address
into `start_address`, then run the cached-region check and fetch logic. -/
def init_with_address (env : RangeEnv) (r0 : RangeState) (address : PyVal)
    (length : Int) (base : Int) (require_data : Bool) :
    Except PyErr (Int × RangeState × List REvent) :=
  init_started env {r0 with start_address := parse_ptr address} length base
    require_data

/-- The message is a well-formed release message for thread id t: it has a payload
whose first `:::` field is `release` and whose second field is t. -/
def isReleaseFor (msg : PyMessage) (t : String) : Prop :=
  ∃ w, msg.payload = some w ∧ 2 ≤ (pySplit w ":::").length ∧
    (pySplit w ":::").getD 0 "" = "release" ∧ (pySplit w ":::").getD 1 "" = t

/-- The patch a hook-registry entry causes on a fetched range with the given base
and tail: the byte offset and original bytes when the entry is a native hook with
known bytes whose thumb-stripped address lies strictly inside the range, nothing
otherwise.  Mirrors the conditions of `patchOne`. -/
def hookPatch (B T : Int) (hv : PyVal) : Option (Nat × List Nat) :=
  match pyGetItem hv "nativePtr" with
  | .error _ => Option.none
  | .ok np =>
    if parse_ptr np ≠ 1 then
      match pyGetItem hv "bytes" with
      | .error _ => Option.none
      | .ok bs =>
        if pyTruthy bs then
          let a0 := parse_ptr np
          let a := if a0 % 2 ≠ 0 then a0 - 1 else a0
          if B < a ∧ a < T then
            match bs with
            | .str s =>
              match bytesFromHex s with
              | some org => some ((a - B).toNat, org)
              | Option.none => Option.none
            | _ => Option.none
          else Option.none
        else Option.none
    else Option.none

/-- Apply a sequence of byte patches in order. -/
def applyPatches (d : List Nat) : List (Nat × List Nat) → List Nat
  | [] => d
  | (off, org) :: ps => applyPatches (sliceAssign d off org) ps

/-- Well-formedness of a hook-registry entry as reported by the injected script:
the fields the patch loop reads have the types it needs, so the loop iteration can
not raise on it. -/
def hookEntryWF (hv : PyVal) : Prop :=
  ∃ np, pyGetItem hv "nativePtr" = .ok np ∧
    (parse_ptr np ≠ 1 → ∃ bs, pyGetItem hv "bytes" = .ok bs ∧
      (pyTruthy bs = true → ∃ s org, bs = PyVal.str s ∧ bytesFromHex s = some org))

/-- The range lookup for the address failed: the gateway answered None, or an
empty container. -/
def rangeLookupFailed (env : RangeEnv) (a : Int) : Prop :=
  env.getRange a = PyVal.none ∨ pyLen (env.getRange a) = .ok 0

/-- A script environment whose api calls all succeed with None; used for concrete
dispatch runs, where no modelled tag consults the call result. -/
def envNull : ScriptEnv := ⟨fun _ _ _ => .ok PyVal.none⟩

/-- An empty thread context used in concrete states. -/
def ctxEmpty : Context := ⟨PyVal.dict []⟩

/-- A concrete range environment: one region at 0x1000 of 16 bytes filled with 7,
and no live hooks. -/
def rangeEnvDemo : RangeEnv :=
  ⟨fun _ => .dict [("base", .str "1000"), ("size", .int 16)],
   fun _ _ => some (List.replicate 16 7), "\x7b\x7d"⟩

/-- A concrete range state caching the region [0x1000, 0x2000) with 16 bytes of 9. -/
def rangeCachedDemo : RangeState :=
  { base := 4096, size := 4096, tail := 8192, data := some (List.replicate 16 9) }

/-- A concrete range environment with an 8-byte region at 0x1000 holding bytes
0..7 and two live hooks: a thumb-flagged native hook at 0x1003 with original bytes
ff ee, and a java hook (pointer 1) that must be skipped. -/
def rangeEnvHooks : RangeEnv :=
  ⟨fun _ => .dict [("base", .str "1000"), ("size", .int 8)],
   fun _ _ => some [0, 1, 2, 3, 4, 5, 6, 7],
   "\x7b\"0x1003\":\x7b\"nativePtr\":\"0x1003\",\"bytes\":\"ffee\"\x7d," ++
   "\"j\":\x7b\"nativePtr\":\"0x1\",\"bytes\":\"aa\"\x7d\x7d"⟩

/-- A concrete range environment whose single live hook sits exactly at the region
base 0x1000 (bytes ff ee); the region holds 8 bytes 0..7. -/
def rangeEnvHookAtBase : RangeEnv :=
  ⟨fun _ => .dict [("base", .str "1000"), ("size", .int 8)],
   fun _ _ => some [0, 1, 2, 3, 4, 5, 6, 7],
   "\x7b\"0x1000\":\x7b\"nativePtr\":\"0x1000\",\"bytes\":\"ffee\"\x7d\x7d"⟩

/-- The hook constructed by dispatching the demo hook_native_callback message for
pointer 0x1000 with original bytes aa bb, logic 0, empty condition and a null
debug symbol. -/
def hookDemo : Hook :=
  { hook_type := HookType.native, ptr := 4096, input := "", bytes := [170, 187],
    condition := PyVal.str "", logic := PyVal.str "0", internalHook := false,
    debug_symbol := PyVal.none }

/-- A live-session state: device assigned, process and script up, one stored
context for thread 1, one native hook and one watcher registered. -/
def stSession : DwarfState :=
  {initState with device := some (), process := some (), script := some (),
                  contexts := [("1", ctxEmpty)], hooks := [((4096 : Int), hookDemo)],
                  watchers := [("0x1000", hookDemo)]}

/-! Helper lemmas. -/

theorem ebind_ok {α β : Type} {x : Except PyErr α} {f : α → Except PyErr β} {b : β}
    (h : ebind x f = .ok b) : ∃ v, x = .ok v ∧ f v = .ok b := by
  cases x with
  | error e => simp [ebind] at h
  | ok v => exact ⟨v, rfl, h⟩

theorem idx_getD {parts : List String} {i : Nat} {v : String}
    (h : idx parts i = .ok v) : parts.getD i "" = v := by
  unfold idx at h
  cases hg : parts.get? i with
  | none => rw [hg] at h; simp at h
  | some s =>
    rw [hg] at h
    simp at h
    rw [List.getD_eq_getElem?_getD, ← List.get?_eq_getElem?, hg]
    simpa using h


theorem dictGet_set_self {β α : Type} [DecidableEq β] (d : List (β × α)) (k : β) (v : α) :
    dictGet (dictSet d k v) k = some v := by
  induction d with
  | nil => simp [dictSet, dictGet]
  | cons p rest ih =>
    obtain ⟨a, b⟩ := p
    by_cases hak : a = k
    · subst hak; simp [dictSet, dictGet]
    · simp [dictSet, dictGet, hak, ih]

theorem dictGet_set_ne {β α : Type} [DecidableEq β] (d : List (β × α)) (k t : β) (v : α)
    (hne : k ≠ t) : dictGet (dictSet d k v) t = dictGet d t := by
  induction d with
  | nil => simp [dictSet, dictGet, hne]
  | cons p rest ih =>
    obtain ⟨a, b⟩ := p
    by_cases hak : a = k
    · subst hak; simp [dictSet, dictGet, hne]
    · by_cases hat : a = t
      · subst hat; simp [dictSet, dictGet, hak]
      · simp [dictSet, dictGet, hak, hat, ih]

theorem dictGet_remove_self {β α : Type} [DecidableEq β] (d : List (β × α)) (t : β) :
    dictGet (dictRemove d t) t = Option.none := by
  induction d with
  | nil => rfl
  | cons p rest ih =>
    obtain ⟨a, b⟩ := p
    by_cases hat : a = t
    · subst hat; simp [dictRemove, dictGet, ih]
    · simp [dictRemove, dictGet, hat, ih]

theorem dictGet_remove_ne {β α : Type} [DecidableEq β] (d : List (β × α)) (k t : β)
    (hne : k ≠ t) : dictGet (dictRemove d k) t = dictGet d t := by
  induction d with
  | nil => rfl
  | cons p rest ih =>
    obtain ⟨a, b⟩ := p
    by_cases hak : a = k
    · subst hak; simp [dictRemove, dictGet, hne, Ne.symm hne, ih]
    · by_cases hat : a = t
      · subst hat; simp [dictRemove, dictGet, hak, ih]
      · simp [dictRemove, dictGet, hak, hat, ih]

theorem dictGet_remove_isSome {β α : Type} [DecidableEq β] (d : List (β × α)) (k t : β)
    (hs : (dictGet d t).isSome) (hkt : k ≠ t) : (dictGet (dictRemove d k) t).isSome := by
  rw [dictGet_remove_ne d k t hkt]; exact hs

theorem dictGet_set_isSome {β α : Type} [DecidableEq β] (d : List (β × α)) (k t : β) (v : α)
    (hs : (dictGet d t).isSome) : (dictGet (dictSet d k v) t).isSome := by
  by_cases hkt : k = t
  · subst hkt; rw [dictGet_set_self]; rfl
  · rw [dictGet_set_ne d k t v hkt]; exact hs

theorem on_message_dispatch (env : ScriptEnv) (st : DwarfState) (msg : PyMessage)
    (w : String) (hmsg : msg.payload = some w)
    (hlen : 2 ≤ (pySplit w ":::").length) :
    on_message env st msg = dispatch env st w (pySplit w ":::") msg.data := by
  unfold on_message
  rw [hmsg]
  simp [Nat.not_lt.mpr hlen]

theorem int_guard_false (n : Int) : (decide (n ≠ 0) && decide (n = 0)) = false := by
  by_cases h : n = 0 <;> simp [h]

/-! Claim theorems. -/

/-- C10: for every api name and arguments, `dwarf_api` returns None without posting
anything to the target when no process is attached or no script is loaded, rather
than raising an exception. -/
theorem dwarf_api_detached_none (env : ScriptEnv) (st : DwarfState) (api : String)
    (args tid : PyVal) (h : st.process = Option.none ∨ st.script = Option.none) :
    dwarf_api env st api args tid = (Option.none, []) := by
  unfold dwarf_api
  rcases h with h | h
  · simp [h]
  · rw [int_guard_false]
    by_cases hp : st.process.isNone
    · simp [hp]
    · simp [hp, h]

/-- Witness for C10 at a concrete detached state. -/
theorem dwarf_api_detached_none_witness :
    dwarf_api envNull initState "readBytes" (PyVal.int 5) (PyVal.int 0) =
      (Option.none, []) :=
  dwarf_api_detached_none envNull initState "readBytes" (PyVal.int 5) (PyVal.int 0)
    (Or.inl rfl)

/-- C9: dispatching a release message for a thread id with no stored context still
logs and publishes a thread-resumed event carrying that id, and leaves the state
unchanged (the deletion is conditional on presence, the events are not). -/
theorem release_without_context_resumes (env : ScriptEnv) (st : DwarfState)
    (msg : PyMessage) (w t : String) (n : Int)
    (hmsg : msg.payload = some w)
    (hsplit : pySplit w ":::" = ["release", t])
    (hn : pyIntDec t = .ok n)
    (habs : dictGet st.contexts t = Option.none) :
    on_message env st msg =
      .ok (st, [Event.logEvent ("releasing := " ++ t), Event.threadResumed n]) := by
  rw [on_message_dispatch env st msg w hmsg (by rw [hsplit]; exact le_refl 2), hsplit]
  unfold dispatch handle_release
  simp [dictMember, habs, ebind, hn]

/-- Witness for C9: releasing thread 7 with an empty context store. -/
theorem release_without_context_resumes_witness :
    on_message envNull initState ⟨some "release:::7", Option.none⟩ =
      .ok (initState, [Event.logEvent ("releasing := " ++ "7"),
                       Event.threadResumed 7]) :=
  release_without_context_resumes envNull initState _ "release:::7" "7" 7
    rfl rfl rfl rfl

/-- The tid-0 release loop posts one routing notification and performs one release
invocation per live context key, in store order, when every key parses as an int
and the remote calls succeed. -/
theorem apiLoop_release (env : ScriptEnv) (f : String → Int) (ks : List String)
    (hk : ∀ k ∈ ks, pyIntDec k = .ok (f k))
    (henv : ∀ t a, ∃ v, env.apiCall t "release" a = .ok v) :
    apiLoop env "release" true ks =
      .ok (ks.flatMap (fun k => [Event.scriptPost k,
        Event.apiInvoke (.int (f k)) "release" (.list [.int (f k)])])) := by
  induction ks with
  | nil => rfl
  | cons k ks ih =>
    have hk0 : pyIntDec k = .ok (f k) := hk k (List.mem_cons_self k ks)
    obtain ⟨v, hv⟩ := henv (.int (f k)) (.list [.int (f k)])
    have ih2 := ih (fun x hm => hk x (List.mem_cons_of_mem _ hm))
    rw [apiLoop, if_pos rfl]
    simp only [hk0, hv, ih2]
    simp

/-- C3: `dwarf_api('release')` with tid 0 posts a routing notification and invokes
the release call exactly once for every thread id currently in the context store
(in order), then returns None; with an empty store the flatMap is empty, so nothing
is posted or invoked and None is returned. -/
theorem dwarf_api_release_broadcast (env : ScriptEnv) (st : DwarfState)
    (f : String → Int)
    (hproc : st.process = some ()) (hscript : st.script = some ())
    (hk : ∀ k ∈ dictKeys st.contexts, pyIntDec k = .ok (f k))
    (henv : ∀ t a, ∃ v, env.apiCall t "release" a = .ok v) :
    dwarf_api env st "release" PyVal.none (PyVal.int 0) =
      (Option.none, (dictKeys st.contexts).flatMap (fun k => [Event.scriptPost k,
        Event.apiInvoke (.int (f k)) "release" (.list [.int (f k)])])) := by
  have hb : (("release" : String) == "release") = true := rfl
  have hz : pyEqInt (PyVal.int 0) 0 = true := rfl
  have hloop := apiLoop_release env f (dictKeys st.contexts) hk henv
  simp only [dwarf_api, int_guard_false, hproc, hscript, hb, hz, Bool.not_true,
             Bool.false_and, Bool.false_or, Option.isNone_some, hloop]
  simp [hz]

/-- Witness for C3: a live session with two stored contexts is broadcast-released,
with one post and one invocation for each of the two thread ids. -/
theorem dwarf_api_release_broadcast_witness :
    dwarf_api envNull
      {initState with process := some (), script := some (),
                      contexts := [("1", ctxEmpty), ("2", ctxEmpty)]}
      "release" PyVal.none (PyVal.int 0) =
      (Option.none,
       [Event.scriptPost "1",
        Event.apiInvoke (.int 1) "release" (.list [.int 1]),
        Event.scriptPost "2",
        Event.apiInvoke (.int 2) "release" (.list [.int 2])]) := by
  have h := dwarf_api_release_broadcast envNull
    {initState with process := some (), script := some (),
                    contexts := [("1", ctxEmpty), ("2", ctxEmpty)]}
    (fun k => match pyIntDec k with | .ok n => n | .error _ => 0)
    rfl rfl
    (by intro k hm
        simp [dictKeys] at hm
        rcases hm with h | h <;> (subst h; rfl))
    (fun t a => ⟨PyVal.none, rfl⟩)
  simpa using h

/-- Dispatch of a `hook_native_callback` tag lands in its handler. -/
theorem dispatch_hook_native (env : ScriptEnv) (st : DwarfState) (what : String)
    (parts : List String) (data : Option (List Nat))
    (hcmd : parts.getD 0 "" = "hook_native_callback") :
    dispatch env st what parts data = handle_hook_native st parts := by
  unfold dispatch
  rw [hcmd]
  simp

/-- C2: a hook_native_callback message whose internal-flag field (field 5) is
"true" leaves the native hook registry untouched and publishes no add-hook event;
with "false" the constructed hook is registered under its pointer key and exactly
the add-hook event is published. -/
theorem hook_native_internal_flag (env : ScriptEnv) (st st' : DwarfState)
    (msg : PyMessage) (w : String) (evs : List Event)
    (hmsg : msg.payload = some w)
    (hcmd : (pySplit w ":::").getD 0 "" = "hook_native_callback")
    (hlen : 2 ≤ (pySplit w ":::").length)
    (h : on_message env st msg = .ok (st', evs)) :
    ((pySplit w ":::").getD 5 "" = "true" →
       st'.hooks = st.hooks ∧ ∀ hk : Hook, Event.addNativeHook hk ∉ evs) ∧
    ((pySplit w ":::").getD 5 "" = "false" →
       ∃ hk : Hook, pyIntHex ((pySplit w ":::").getD 1 "") = .ok hk.ptr ∧
         hk.internalHook = false ∧
         st'.hooks = dictSet st.hooks hk.ptr hk ∧
         evs = [Event.addNativeHook hk]) := by
  rw [on_message_dispatch env st msg w hmsg hlen,
      dispatch_hook_native env st w _ msg.data hcmd] at h
  unfold handle_hook_native at h
  obtain ⟨ptr, hptr, h⟩ := ebind_ok h
  obtain ⟨p2, hp2, h⟩ := ebind_ok h
  obtain ⟨bs, hbs, h⟩ := ebind_ok h
  obtain ⟨p4, hp4, h⟩ := ebind_ok h
  obtain ⟨p3, hp3, h⟩ := ebind_ok h
  obtain ⟨p5, hp5, h⟩ := ebind_ok h
  obtain ⟨p6, hp6, h⟩ := ebind_ok h
  obtain ⟨dbg, hdbg, h⟩ := ebind_ok h
  have hg5 : (pySplit w ":::").getD 5 "" = p5 := idx_getD hp5
  constructor
  · intro h5
    have hp5t : p5 = "true" := by rw [← hg5, h5]
    subst hp5t
    have h2 : (Except.ok ({st with temporary_input := "", native_pending_args := Option.none}, ([] : List Event)) : Except PyErr (DwarfState × List Event)) = .ok (st', evs) := h
    simp only [Except.ok.injEq, Prod.mk.injEq] at h2
    obtain ⟨hst, hevs⟩ := h2
    constructor
    · rw [← hst]
    · intro hk hmem
      rw [← hevs] at hmem
      simp at hmem
  · intro h5
    have hp5f : p5 = "false" := by rw [← hg5, h5]
    subst hp5f
    have h2 : (Except.ok ({st with temporary_input := "", native_pending_args := Option.none, hooks := dictSet st.hooks ptr { hook_type := HookType.native, ptr := ptr, input := st.temporary_input, bytes := bs, condition := PyVal.str p4, logic := PyVal.str p3, internalHook := false, debug_symbol := dbg }}, [Event.addNativeHook { hook_type := HookType.native, ptr := ptr, input := st.temporary_input, bytes := bs, condition := PyVal.str p4, logic := PyVal.str p3, internalHook := false, debug_symbol := dbg }]) : Except PyErr (DwarfState × List Event)) = .ok (st', evs) := h
    simp only [Except.ok.injEq, Prod.mk.injEq] at h2
    obtain ⟨hst, hevs⟩ := h2
    exact ⟨_, hptr, rfl, by rw [← hst], hevs.symm⟩

/-- Witness for C2: dispatching the demo message with internal flag "false"
registers the hook under its pointer key 0x1000 and publishes the add-hook event. -/
theorem hook_native_internal_flag_witness :
    ∃ hk : Hook,
      pyIntHex ((pySplit "hook_native_callback:::0x1000:::aabb:::0::::::false:::null" ":::").getD 1 "") = .ok hk.ptr ∧
      hk.internalHook = false ∧
      ({initState with hooks := [((4096 : Int), hookDemo)]}).hooks = dictSet initState.hooks hk.ptr hk ∧
      [Event.addNativeHook hookDemo] = [Event.addNativeHook hk] :=
  (hook_native_internal_flag envNull initState
    {initState with hooks := [((4096 : Int), hookDemo)]}
    ⟨some "hook_native_callback:::0x1000:::aabb:::0::::::false:::null", Option.none⟩
    "hook_native_callback:::0x1000:::aabb:::0::::::false:::null"
    [Event.addNativeHook hookDemo]
    rfl rfl (by decide) rfl).2 rfl

/-- C4 counterexample: the dispatcher is not exception-free.  A well-formed
`watcher_removed` message whose normalized pointer key is absent from the watcher
registry makes `self.watchers.pop(hex_ptr)` raise KeyError. -/
theorem dispatch_watcher_removed_keyerror_cex :
    on_message envNull initState ⟨some "watcher_removed:::0x10", Option.none⟩ =
      .error .keyError := rfl

/-- C4 amended: messages without a payload envelope, with fewer than two fields,
or with an unrecognized tag are printed and dropped without mutating any state and
without raising; recognized-tag handlers, however, can raise (see the
counterexample). -/
theorem dispatch_malformed_unknown_dropped (env : ScriptEnv) (st : DwarfState)
    (msg : PyMessage)
    (h : msg.payload = Option.none ∨ ∃ w, msg.payload = some w ∧
         ((pySplit w ":::").length < 2 ∨ (pySplit w ":::").getD 0 "" ∉ knownTags)) :
    ∃ s, on_message env st msg = .ok (st, [Event.printed s]) := by
  rcases h with h | ⟨w, hw, h⟩
  · refine ⟨"payload: ", ?_⟩
    unfold on_message
    rw [h]
  · rcases h with hlen | hmem
    · refine ⟨w, ?_⟩
      unfold on_message
      rw [hw]
      simp [hlen]
    · by_cases hlen2 : (pySplit w ":::").length < 2
      · refine ⟨w, ?_⟩
        unfold on_message
        rw [hw]
        simp [hlen2]
      · refine ⟨"unknown message: " ++ w, ?_⟩
        rw [on_message_dispatch env st msg w hw (Nat.le_of_not_lt hlen2)]
        simp only [knownTags, List.mem_cons, List.mem_singleton, not_or] at hmem
        obtain ⟨n1, n2, n3, n4, n5, n6, n7, n8, n9, n10, n11, n12, n13, n14, n15,
                n16, n17, n18, n19, n20, n21, n22, n23, n24, n25, n26, n27, n28,
                n29, n30, n31, n32, n33⟩ := hmem
        unfold dispatch
        simp only [List.getD_eq_getElem?_getD] at n1 n2 n3 n4 n5 n6 n7 n8 n9 n10 n11 n12 n13 n14 n15 n16 n17 n18 n19 n20 n21 n22 n23 n24 n25 n26 n27 n28 n29 n30 n31 n32 n33
        simp [n1, n2, n3, n4, n5, n6, n7, n8, n9, n10, n11, n12, n13, n14, n15,
              n16, n17, n18, n19, n20, n21, n22, n23, n24, n25, n26, n27, n28,
              n29, n30, n31, n32, n33]

/-- Witness for the amended C4: an unrecognized tag is printed and dropped with no
state change. -/
theorem dispatch_malformed_unknown_dropped_witness :
    ∃ s, on_message envNull initState ⟨some "totally_unknown:::x", Option.none⟩ =
      .ok (initState, [Event.printed s]) :=
  dispatch_malformed_unknown_dropped envNull initState
    ⟨some "totally_unknown:::x", Option.none⟩
    (Or.inr ⟨"totally_unknown:::x", rfl, Or.inr (by decide)⟩)

/-- Successful ok-results determine the state component. -/
theorem ok_state {s2 st' : DwarfState} {l2 evs : List Event}
    (h : (Except.ok (s2, l2) : Except PyErr (DwarfState × List Event)) = .ok (st', evs)) :
    st' = s2 := by
  injection h with h1
  exact (congrArg Prod.fst h1).symm

/-- A non-release tag cannot remove a context that is still present afterwards. -/
theorem contexts_iff_of_isSome {st' : DwarfState} {t tag : String} {parts : List String}
    (hps : (dictGet st'.contexts t).isSome)
    (hc : parts.getD 0 "" = tag) (hne : tag ≠ "release") :
    (dictGet st'.contexts t = Option.none ↔
      (parts.getD 0 "" = "release" ∧ parts.getD 1 "" = t)) := by
  constructor
  · intro hnone
    rw [hnone] at hps
    simp at hps
  · intro hrel
    exact absurd (hc.symm.trans hrel.1) hne

theorem handle_hook_java_contexts {st st' : DwarfState} {parts : List String}
    {evs : List Event} (h : handle_hook_java st parts = .ok (st', evs)) :
    st'.contexts = st.contexts := by
  unfold handle_hook_java at h
  have hst := ok_state h
  rw [hst]
  cases st.java_pending_args <;> rfl

theorem handle_hook_java_on_load_contexts {st st' : DwarfState} {parts : List String}
    {evs : List Event} (h : handle_hook_java_on_load st parts = .ok (st', evs)) :
    st'.contexts = st.contexts := by
  unfold handle_hook_java_on_load at h
  rw [ok_state h]

theorem handle_hook_native_contexts {st st' : DwarfState} {parts : List String}
    {evs : List Event} (h : handle_hook_native st parts = .ok (st', evs)) :
    st'.contexts = st.contexts := by
  unfold handle_hook_native at h
  obtain ⟨ptr, _, h⟩ := ebind_ok h
  obtain ⟨p2, _, h⟩ := ebind_ok h
  obtain ⟨bs, _, h⟩ := ebind_ok h
  obtain ⟨p4, _, h⟩ := ebind_ok h
  obtain ⟨p3, _, h⟩ := ebind_ok h
  obtain ⟨p5, _, h⟩ := ebind_ok h
  obtain ⟨p6, _, h⟩ := ebind_ok h
  obtain ⟨dbg, _, h⟩ := ebind_ok h
  cases hb : p5 == "true" <;> rw [hb] at h <;> rw [ok_state h]

theorem handle_hook_native_on_load_contexts {st st' : DwarfState} {parts : List String}
    {evs : List Event} (h : handle_hook_native_on_load st parts = .ok (st', evs)) :
    st'.contexts = st.contexts := by
  unfold handle_hook_native_on_load at h
  rw [ok_state h]

theorem handle_hook_deleted_contexts {st st' : DwarfState} {parts : List String}
    {evs : List Event} (h : handle_hook_deleted st parts = .ok (st', evs)) :
    st'.contexts = st.contexts := by
  unfold handle_hook_deleted at h
  split at h <;> try split at h
  all_goals try split at h
  all_goals
    (obtain ⟨p2, _, h⟩ := ebind_ok h
     obtain ⟨m, _, h⟩ := ebind_ok h
     rw [ok_state h])

theorem handle_release_js_contexts {env : ScriptEnv} {st st' : DwarfState}
    {parts : List String} {evs : List Event}
    (h : handle_release_js env st parts = .ok (st', evs)) :
    st'.contexts = st.contexts := by
  unfold handle_release_js at h
  obtain ⟨n, _, h⟩ := ebind_ok h
  rw [ok_state h]

theorem handle_watcher_added_contexts {st st' : DwarfState} {parts : List String}
    {evs : List Event} (h : handle_watcher_added st parts = .ok (st', evs)) :
    st'.contexts = st.contexts := by
  unfold handle_watcher_added at h
  obtain ⟨p2, _, h⟩ := ebind_ok h
  obtain ⟨flags, _, h⟩ := ebind_ok h
  obtain ⟨p3, _, h⟩ := ebind_ok h
  obtain ⟨dbg, _, h⟩ := ebind_ok h
  rw [ok_state h]

theorem handle_watcher_removed_contexts {st st' : DwarfState} {parts : List String}
    {evs : List Event} (h : handle_watcher_removed st parts = .ok (st', evs)) :
    st'.contexts = st.contexts := by
  unfold handle_watcher_removed at h
  obtain ⟨m, _, h⟩ := ebind_ok h
  rw [ok_state h]

theorem handle_watcher_contexts {st st' : DwarfState} {parts : List String}
    {evs : List Event} (h : handle_watcher st parts = .ok (st', evs)) :
    st'.contexts = st.contexts := by
  unfold handle_watcher at h
  obtain ⟨exc, _, h⟩ := ebind_ok h
  obtain ⟨m1, _, h⟩ := ebind_ok h
  obtain ⟨op, _, h⟩ := ebind_ok h
  obtain ⟨m2, _, h⟩ := ebind_ok h
  obtain ⟨addr, _, h⟩ := ebind_ok h
  obtain ⟨p2, _, h⟩ := ebind_ok h
  rw [ok_state h]

theorem handle_set_data_contexts {st st' : DwarfState} {parts : List String}
    {data : Option (List Nat)} {evs : List Event}
    (h : handle_set_data st parts data = .ok (st', evs)) :
    st'.contexts = st.contexts := by
  unfold handle_set_data at h
  split at h
  · split at h
    · rw [ok_state h]
    · obtain ⟨p2, _, h⟩ := ebind_ok h
      rw [ok_state h]
  · obtain ⟨p2, _, h⟩ := ebind_ok h
    rw [ok_state h]

theorem resume_proc_contexts {st st' : DwarfState} {evs : List Event}
    (h : resume_proc st = .ok (st', evs)) : st'.contexts = st.contexts := by
  unfold resume_proc at h
  split at h
  · split at h
    · simp at h
    · rw [ok_state h]
  · rw [ok_state h]

theorem handle_release_spec {st st' : DwarfState} {parts : List String}
    {evs : List Event} (h : handle_release st parts = .ok (st', evs)) :
    st'.contexts = (if dictMember st.contexts (parts.getD 1 "") then
      dictRemove st.contexts (parts.getD 1 "") else st.contexts) := by
  unfold handle_release at h
  obtain ⟨n, _, h⟩ := ebind_ok h
  rw [ok_state h]
  by_cases hm : dictMember st.contexts (parts.getD 1 "") = true
  · rw [if_pos hm, if_pos hm]
  · rw [if_neg hm, if_neg hm]

theorem applyContextHit_keeps {st st' : DwarfState} {d : PyVal} {evs : List Event}
    (h : applyContextHit st d = .ok (st', evs)) (t : String)
    (hs : (dictGet st.contexts t).isSome) : (dictGet st'.contexts t).isSome := by
  unfold applyContextHit at h
  obtain ⟨hasCtx, _, h⟩ := ebind_ok h
  split at h
  · obtain ⟨ctxv, _, h⟩ := ebind_ok h
    obtain ⟨tidv, _, h⟩ := ebind_ok h
    obtain ⟨ns, _, h⟩ := ebind_ok h
    obtain ⟨r2, _, h⟩ := ebind_ok h
    split at h
    · obtain ⟨tstr, _, h⟩ := ebind_ok h
      rw [ok_state h]
      exact dictGet_set_isSome _ _ _ _ hs
    · rw [ok_state h]
      exact dictGet_set_isSome _ _ _ _ hs
  · rw [ok_state h]
    exact hs

theorem on_apply_context_keeps {st st' : DwarfState} {d : PyVal} {evs : List Event}
    (h : on_apply_context st d = .ok (st', evs)) (t : String)
    (hs : (dictGet st.contexts t).isSome) : (dictGet st'.contexts t).isSome := by
  unfold on_apply_context at h
  obtain ⟨reason, _, h⟩ := ebind_ok h
  split at h
  · obtain ⟨archv, _, h⟩ := ebind_ok h
    obtain ⟨platv, _, h⟩ := ebind_ok h
    obtain ⟨psize, _, h⟩ := ebind_ok h
    obtain ⟨javav, _, h⟩ := ebind_ok h
    rw [ok_state h]
    exact hs
  · obtain ⟨p, hp, h⟩ := ebind_ok h
    have hkeep := applyContextHit_keeps hp t hs
    split at h
    · obtain ⟨tidv, _, h⟩ := ebind_ok h
      rw [ok_state h]
      exact hkeep
    · obtain ⟨hst, _⟩ := Prod.mk.injEq _ _ _ _ ▸ (Except.ok.injEq _ _ ▸ h)
      rw [← hst]
      exact hkeep

theorem handle_set_context_keeps {st st' : DwarfState} {p1 : String} {evs : List Event}
    (h : handle_set_context st p1 = .ok (st', evs)) (t : String)
    (hs : (dictGet st.contexts t).isSome) : (dictGet st'.contexts t).isSome := by
  unfold handle_set_context at h
  obtain ⟨d, _, h⟩ := ebind_ok h
  obtain ⟨hasM, _, h⟩ := ebind_ok h
  obtain ⟨e1, _, h⟩ := ebind_ok h
  obtain ⟨hasR, _, h⟩ := ebind_ok h
  obtain ⟨e2, _, h⟩ := ebind_ok h
  obtain ⟨hasB, _, h⟩ := ebind_ok h
  obtain ⟨e3, _, h⟩ := ebind_ok h
  obtain ⟨p, hp, h⟩ := ebind_ok h
  have hkeep := on_apply_context_keeps hp t hs
  obtain ⟨hst, _⟩ := Prod.mk.injEq _ _ _ _ ▸ (Except.ok.injEq _ _ ▸ h)
  rw [← hst]
  exact hkeep

/-- Across the whole tag dispatch, a stored context for t disappears exactly when
the dispatched message is a release for t. -/
theorem dispatch_contexts (env : ScriptEnv) (st : DwarfState) (what : String)
    (parts : List String) (data : Option (List Nat)) (st' : DwarfState)
    (evs : List Event) (t : String)
    (hs : (dictGet st.contexts t).isSome)
    (h : dispatch env st what parts data = .ok (st', evs)) :
    (dictGet st'.contexts t = Option.none ↔
      (parts.getD 0 "" = "release" ∧ parts.getD 1 "" = t)) := by
  delta dispatch at h
  by_cases hc1 : parts.getD 0 "" = "api_ping_timeout"
  · rw [if_pos hc1] at h
    split at h
    · simp at h
    · refine contexts_iff_of_isSome ?_ hc1 (by decide)
      rw [ok_state h]
      exact hs
  rw [if_neg hc1] at h
  by_cases hc2 : parts.getD 0 "" = "backtrace"
  · rw [if_pos hc2] at h
    obtain ⟨v0, _, h⟩ := ebind_ok h
    refine contexts_iff_of_isSome ?_ hc2 (by decide)
    rw [ok_state h]
    exact hs
  rw [if_neg hc2] at h
  by_cases hc3 : parts.getD 0 "" = "class_loader_loading_class"
  · rw [if_pos hc3] at h
    obtain ⟨v0, _, h⟩ := ebind_ok h
    refine contexts_iff_of_isSome ?_ hc3 (by decide)
    rw [ok_state h]
    exact hs
  rw [if_neg hc3] at h
  by_cases hc4 : parts.getD 0 "" = "enumerate_java_classes_start"
  · rw [if_pos hc4] at h
    refine contexts_iff_of_isSome ?_ hc4 (by decide)
    rw [ok_state h]
    exact hs
  rw [if_neg hc4] at h
  by_cases hc5 : parts.getD 0 "" = "enumerate_java_classes_match"
  · rw [if_pos hc5] at h
    refine contexts_iff_of_isSome ?_ hc5 (by decide)
    rw [ok_state h]
    exact hs
  rw [if_neg hc5] at h
  by_cases hc6 : parts.getD 0 "" = "enumerate_java_classes_complete"
  · rw [if_pos hc6] at h
    refine contexts_iff_of_isSome ?_ hc6 (by decide)
    rw [ok_state h]
    exact hs
  rw [if_neg hc6] at h
  by_cases hc7 : parts.getD 0 "" = "enumerate_java_methods_complete"
  · rw [if_pos hc7] at h
    obtain ⟨v0, _, h⟩ := ebind_ok h
    obtain ⟨v1, _, h⟩ := ebind_ok h
    refine contexts_iff_of_isSome ?_ hc7 (by decide)
    rw [ok_state h]
    exact hs
  rw [if_neg hc7] at h
  by_cases hc8 : parts.getD 0 "" = "ftrace"
  · rw [if_pos hc8] at h
    simp at h
  rw [if_neg hc8] at h
  by_cases hc9 : parts.getD 0 "" = "enable_kernel"
  · rw [if_pos hc9] at h
    refine contexts_iff_of_isSome ?_ hc9 (by decide)
    rw [ok_state h]
    exact hs
  rw [if_neg hc9] at h
  by_cases hc10 : parts.getD 0 "" = "hook_java_callback"
  · rw [if_pos hc10] at h
    refine contexts_iff_of_isSome ?_ hc10 (by decide)
    rw [handle_hook_java_contexts h]
    exact hs
  rw [if_neg hc10] at h
  by_cases hc11 : parts.getD 0 "" = "hook_java_on_load_callback"
  · rw [if_pos hc11] at h
    refine contexts_iff_of_isSome ?_ hc11 (by decide)
    rw [handle_hook_java_on_load_contexts h]
    exact hs
  rw [if_neg hc11] at h
  by_cases hc12 : parts.getD 0 "" = "hook_native_callback"
  · rw [if_pos hc12] at h
    refine contexts_iff_of_isSome ?_ hc12 (by decide)
    rw [handle_hook_native_contexts h]
    exact hs
  rw [if_neg hc12] at h
  by_cases hc13 : parts.getD 0 "" = "hook_native_on_load_callback"
  · rw [if_pos hc13] at h
    refine contexts_iff_of_isSome ?_ hc13 (by decide)
    rw [handle_hook_native_on_load_contexts h]
    exact hs
  rw [if_neg hc13] at h
  by_cases hc14 : parts.getD 0 "" = "hook_deleted"
  · rw [if_pos hc14] at h
    refine contexts_iff_of_isSome ?_ hc14 (by decide)
    rw [handle_hook_deleted_contexts h]
    exact hs
  rw [if_neg hc14] at h
  by_cases hc15 : parts.getD 0 "" = "java_on_load_callback"
  · rw [if_pos hc15] at h
    obtain ⟨v0, _, h⟩ := ebind_ok h
    refine contexts_iff_of_isSome ?_ hc15 (by decide)
    rw [ok_state h]
    exact hs
  rw [if_neg hc15] at h
  by_cases hc16 : parts.getD 0 "" = "java_trace"
  · rw [if_pos hc16] at h
    refine contexts_iff_of_isSome ?_ hc16 (by decide)
    rw [ok_state h]
    exact hs
  rw [if_neg hc16] at h
  by_cases hc17 : parts.getD 0 "" = "log"
  · rw [if_pos hc17] at h
    refine contexts_iff_of_isSome ?_ hc17 (by decide)
    rw [ok_state h]
    exact hs
  rw [if_neg hc17] at h
  by_cases hc18 : parts.getD 0 "" = "native_on_load_callback"
  · rw [if_pos hc18] at h
    obtain ⟨v0, _, h⟩ := ebind_ok h
    obtain ⟨v1, _, h⟩ := ebind_ok h
    refine contexts_iff_of_isSome ?_ hc18 (by decide)
    rw [ok_state h]
    exact hs
  rw [if_neg hc18] at h
  by_cases hc19 : parts.getD 0 "" = "native_on_load_module_loading"
  · rw [if_pos hc19] at h
    obtain ⟨v0, _, h⟩ := ebind_ok h
    refine contexts_iff_of_isSome ?_ hc19 (by decide)
    rw [ok_state h]
    exact hs
  rw [if_neg hc19] at h
  by_cases hc20 : parts.getD 0 "" = "new_thread"
  · rw [if_pos hc20] at h
    obtain ⟨v0, _, h⟩ := ebind_ok h
    refine contexts_iff_of_isSome ?_ hc20 (by decide)
    rw [ok_state h]
    exact hs
  rw [if_neg hc20] at h
  by_cases hc21 : parts.getD 0 "" = "release"
  · rw [if_pos hc21] at h
    have hspec := handle_release_spec h
    constructor
    · intro hnone
      refine ⟨hc21, ?_⟩
      by_cases hp : parts.getD 1 "" = t
      · exact hp
      · exfalso
        rw [hspec] at hnone
        by_cases hm : dictMember st.contexts (parts.getD 1 "") = true
        · rw [if_pos hm, dictGet_remove_ne _ _ _ hp] at hnone
          rw [hnone] at hs
          simp at hs
        · rw [if_neg hm] at hnone
          rw [hnone] at hs
          simp at hs
    · rintro ⟨-, hp⟩
      subst hp
      rw [hspec, if_pos (show dictMember st.contexts (parts.getD 1 "") = true from hs)]
      exact dictGet_remove_self _ _
  rw [if_neg hc21] at h
  by_cases hc22 : parts.getD 0 "" = "resume"
  · rw [if_pos hc22] at h
    refine contexts_iff_of_isSome ?_ hc22 (by decide)
    split at h
    · rw [resume_proc_contexts h]
      exact hs
    · rw [ok_state h]
      exact hs
  rw [if_neg hc22] at h
  by_cases hc23 : parts.getD 0 "" = "release_js"
  · rw [if_pos hc23] at h
    refine contexts_iff_of_isSome ?_ hc23 (by decide)
    rw [handle_release_js_contexts h]
    exact hs
  rw [if_neg hc23] at h
  by_cases hc24 : parts.getD 0 "" = "set_context"
  · rw [if_pos hc24] at h
    exact contexts_iff_of_isSome (handle_set_context_keeps h t hs) hc24 (by decide)
  rw [if_neg hc24] at h
  by_cases hc25 : parts.getD 0 "" = "set_context_value"
  · rw [if_pos hc25] at h
    obtain ⟨v0, _, h⟩ := ebind_ok h
    refine contexts_iff_of_isSome ?_ hc25 (by decide)
    rw [ok_state h]
    exact hs
  rw [if_neg hc25] at h
  by_cases hc26 : parts.getD 0 "" = "set_data"
  · rw [if_pos hc26] at h
    refine contexts_iff_of_isSome ?_ hc26 (by decide)
    rw [handle_set_data_contexts h]
    exact hs
  rw [if_neg hc26] at h
  by_cases hc27 : parts.getD 0 "" = "unhandled_exception"
  · rw [if_pos hc27] at h
    refine contexts_iff_of_isSome ?_ hc27 (by decide)
    rw [ok_state h]
    exact hs
  rw [if_neg hc27] at h
  by_cases hc28 : parts.getD 0 "" = "update_modules"
  · rw [if_pos hc28] at h
    obtain ⟨v0, _, h⟩ := ebind_ok h
    obtain ⟨v1, _, h⟩ := ebind_ok h
    refine contexts_iff_of_isSome ?_ hc28 (by decide)
    rw [ok_state h]
    exact hs
  rw [if_neg hc28] at h
  by_cases hc29 : parts.getD 0 "" = "update_ranges"
  · rw [if_pos hc29] at h
    obtain ⟨v0, _, h⟩ := ebind_ok h
    obtain ⟨v1, _, h⟩ := ebind_ok h
    refine contexts_iff_of_isSome ?_ hc29 (by decide)
    rw [ok_state h]
    exact hs
  rw [if_neg hc29] at h
  by_cases hc30 : parts.getD 0 "" = "watcher"
  · rw [if_pos hc30] at h
    refine contexts_iff_of_isSome ?_ hc30 (by decide)
    rw [handle_watcher_contexts h]
    exact hs
  rw [if_neg hc30] at h
  by_cases hc31 : parts.getD 0 "" = "watcher_added"
  · rw [if_pos hc31] at h
    refine contexts_iff_of_isSome ?_ hc31 (by decide)
    rw [handle_watcher_added_contexts h]
    exact hs
  rw [if_neg hc31] at h
  by_cases hc32 : parts.getD 0 "" = "watcher_removed"
  · rw [if_pos hc32] at h
    refine contexts_iff_of_isSome ?_ hc32 (by decide)
    rw [handle_watcher_removed_contexts h]
    exact hs
  rw [if_neg hc32] at h
  by_cases hc33 : parts.getD 0 "" = "memoryscan_result"
  · rw [if_pos hc33] at h
    refine contexts_iff_of_isSome ?_ hc33 (by decide)
    split at h
    · rw [ok_state h]
      exact hs
    · obtain ⟨v0, _, h⟩ := ebind_ok h
      rw [ok_state h]
      exact hs
  rw [if_neg hc33] at h
  constructor
  · intro hnone
    rw [ok_state h] at hnone
    rw [hnone] at hs
    simp at hs
  · rintro ⟨hcmd, -⟩
    exact absurd hcmd hc21

/-- C7: a context stored for thread id t is removed exactly by dispatching a
release message for t; every other successfully dispatched message leaves a
context for t in the store. -/
theorem context_removed_only_by_release (env : ScriptEnv) (st st' : DwarfState)
    (msg : PyMessage) (evs : List Event) (t : String)
    (hs : (dictGet st.contexts t).isSome)
    (h : on_message env st msg = .ok (st', evs)) :
    (dictGet st'.contexts t = Option.none ↔ isReleaseFor msg t) := by
  unfold isReleaseFor
  cases hp : msg.payload with
  | none =>
    have h2 : (Except.ok (st, [Event.printed "payload: "]) :
        Except PyErr (DwarfState × List Event)) = .ok (st', evs) := by
      rw [← h]
      unfold on_message
      rw [hp]
    constructor
    · intro hnone
      rw [ok_state h2] at hnone
      rw [hnone] at hs
      simp at hs
    · rintro ⟨w, hw, -⟩
      simp at hw
  | some w =>
    by_cases hlen : (pySplit w ":::").length < 2
    · have h2 : (Except.ok (st, [Event.printed w]) :
          Except PyErr (DwarfState × List Event)) = .ok (st', evs) := by
        rw [← h]
        unfold on_message
        rw [hp]
        simp [hlen]
      constructor
      · intro hnone
        rw [ok_state h2] at hnone
        rw [hnone] at hs
        simp at hs
      · rintro ⟨w2, hw2, hl2, -, -⟩
        injection hw2 with he
        subst he
        exact absurd hl2 (by omega)
    · rw [on_message_dispatch env st msg w hp (Nat.le_of_not_lt hlen)] at h
      rw [dispatch_contexts env st w _ msg.data st' evs t hs h]
      constructor
      · rintro ⟨h0, h1⟩
        exact ⟨w, rfl, Nat.le_of_not_lt hlen, h0, h1⟩
      · rintro ⟨w2, hw2, -, h0, h1⟩
        injection hw2 with he
        subst he
        exact ⟨h0, h1⟩

/-- Witness for C7: with a context stored for thread 1, dispatching release for
thread 1 removes it (both sides of the equivalence hold). -/
theorem context_removed_only_by_release_witness :
    (dictGet initState.contexts "1" = Option.none ↔
      isReleaseFor ⟨some "release:::1", Option.none⟩ "1") :=
  context_removed_only_by_release envNull
    {initState with contexts := [("1", ctxEmpty)]} initState
    ⟨some "release:::1", Option.none⟩
    [Event.logEvent ("releasing := " ++ "1"), Event.threadResumed 1] "1"
    rfl rfl

/-- C5 amended: a request address strictly between the cached base and tail
short-circuits: status -1, only the start address and start offset change, and no
collaborator is consulted (no re-fetch). -/
theorem range_cached_offset_update (env : RangeEnv) (r : RangeState)
    (address : PyVal) (length base : Int) (require_data : Bool)
    (h1 : r.base > 0) (h2 : r.base < parse_ptr address)
    (h3 : parse_ptr address < r.tail) :
    init_with_address env r address length base require_data =
      .ok (-1, {r with start_address := parse_ptr address,
                       start_offset := parse_ptr address - r.base}, []) := by
  unfold init_with_address init_started
  rw [if_pos (show _ ∧ _ ∧ _ from ⟨h1, h2, h3⟩)]

/-- Witness for the amended C5: a second request at 0x1388 inside the cached
region [0x1000, 0x2000) updates only the offset and touches nothing else. -/
theorem range_cached_offset_update_witness :
    init_with_address rangeEnvDemo rangeCachedDemo (.int 5000) 0 0 true =
      .ok (-1, {rangeCachedDemo with start_address := 5000, start_offset := 904},
           []) :=
  range_cached_offset_update rangeEnvDemo rangeCachedDemo (.int 5000) 0 0 true
    (by decide) (by decide) (by decide)

/-- C5 counterexample: the claimed interval is [base, tail), but the code uses
strict inequality on both sides.  A request at exactly the cached base 0x1000 of
region [0x1000, 0x2000) does not short-circuit: it re-fetches (getRange and
readMemory are consulted), returns 0, and replaces the cached bytes. -/
theorem range_base_refetch_cex :
    init_with_address rangeEnvDemo rangeCachedDemo (.int 4096) 0 0 true =
      .ok (0, { source := 0, base := 4096, size := 16, tail := 4112,
                data := some (List.replicate 16 7), start_address := 4096,
                start_offset := 0 },
           [REvent.getRange 4096, REvent.readMemory 4096 16, REvent.hooksQuery]) := by
  rfl

/-- The final status checks of `init_with_address`: the code is 1 exactly for an
absent or empty buffer and 0 exactly for a populated one. -/
theorem rangeFinish_code (r : RangeState) (evs : List REvent) (c : Int)
    (r2 : RangeState) (evs2 : List REvent)
    (h : rangeFinish r evs = .ok (c, r2, evs2)) :
    (c = 1 ∨ c = 0) ∧ (c = 1 ↔ (r2.data = Option.none ∨ r2.data = some [])) ∧
      (c = 0 → ∃ d, r2.data = some d ∧ d ≠ []) := by
  unfold rangeFinish at h
  cases hd : r.data with
  | none =>
    rw [hd] at h
    simp at h
    obtain ⟨hc, hr2, -⟩ := h
    subst hc
    subst hr2
    refine ⟨Or.inl rfl, by simp, fun h0 => absurd h0 (by decide)⟩
  | some d =>
    rw [hd] at h
    by_cases he : d.isEmpty = true
    · simp [he] at h
      obtain ⟨hc, hr2, -⟩ := h
      subst hc
      subst hr2
      have hdnil : d = [] := List.isEmpty_iff.mp he
      refine ⟨Or.inl rfl, by simp [hd, hdnil], fun h0 => absurd h0 (by decide)⟩
    · simp [he] at h
      obtain ⟨hc, hr2, -⟩ := h
      subst hc
      subst hr2
      have hdnil : d ≠ [] := fun hh => he (by rw [hh]; rfl)
      refine ⟨Or.inr rfl, ?_, fun _ => ⟨d, hd, hdnil⟩⟩
      constructor
      · intro h1c
        exact absurd h1c (by decide)
      · intro hcontra
        rw [hd] at hcontra
        rcases hcontra with hh | hh
        · simp at hh
        · simp at hh
          exact (hdnil hh).elim

/-- Status codes of the fetch path of `init_started`: 1 exactly when the range
lookup failed or the resulting buffer is empty, and 0 only with a populated
buffer. -/
theorem init_started_code (env : RangeEnv) (r : RangeState) (length base : Int)
    (reqd : Bool) (code : Int) (r' : RangeState) (evs : List REvent)
    (hsrc : r.source = SOURCE_TARGET)
    (hns : ¬(r.base > 0 ∧ r.base < r.start_address ∧ r.start_address < r.tail))
    (h : init_started env r length base reqd = .ok (code, r', evs)) :
    (code = 1 ↔ (rangeLookupFailed env r.start_address ∨
       r'.data = Option.none ∨ r'.data = some [])) ∧
    (code = 0 → ∃ d, r'.data = some d ∧ d ≠ []) := by
  unfold init_started at h
  rw [if_neg hns, if_pos hsrc] at h
  unfold rangeLookupFailed
  generalize hg : env.getRange r.start_address = gv at h ⊢
  cases gv with
  | none =>
    simp at h
    obtain ⟨hc, hr', -⟩ := h
    subst hc
    subst hr'
    exact ⟨by simp, fun h0 => absurd h0 (by decide)⟩
  | bool b => simp [ebind, pyLen] at h
  | int n => simp [ebind, pyLen] at h
  | str s =>
    simp only [pyLen, ebind] at h
    by_cases hl : s.length = 0
    · rw [if_pos hl] at h
      simp at h
      obtain ⟨hc, hr', -⟩ := h
      subst hc
      subst hr'
      exact ⟨by simp [pyLen, hl], fun h0 => absurd h0 (by decide)⟩
    · rw [if_neg hl] at h
      simp [ebind, pyGetItem] at h
  | list xs =>
    simp only [pyLen, ebind] at h
    by_cases hl : xs.length = 0
    · rw [if_pos hl] at h
      simp at h
      obtain ⟨hc, hr', -⟩ := h
      subst hc
      subst hr'
      exact ⟨by simp [pyLen, hl], fun h0 => absurd h0 (by decide)⟩
    · rw [if_neg hl] at h
      simp [ebind, pyGetItem] at h
  | dict xs =>
    simp only [pyLen, ebind] at h
    by_cases hl : xs.length = 0
    · rw [if_pos hl] at h
      simp at h
      obtain ⟨hc, hr', -⟩ := h
      subst hc
      subst hr'
      exact ⟨by simp [pyLen, hl], fun h0 => absurd h0 (by decide)⟩
    · rw [if_neg hl] at h
      obtain ⟨bv, hbv, h⟩ := ebind_ok h
      obtain ⟨b0, hb0, h⟩ := ebind_ok h
      obtain ⟨sv, hsv, h⟩ := ebind_ok h
      obtain ⟨sz0, hsz0, h⟩ := ebind_ok h
      have hnofail : ¬(PyVal.dict xs = PyVal.none ∨ pyLen (PyVal.dict xs) = .ok 0) := by
        rintro (hh | hh)
        · simp at hh
        · simp [pyLen] at hh
          exact hl (by rw [hh]; rfl)
      cases reqd with
      | false =>
        rw [if_neg (by decide : ¬(false = true))] at h
        have hrf := rangeFinish_code _ _ _ _ _ h
        refine ⟨?_, hrf.2.2⟩
        constructor
        · intro h1
          exact Or.inr (hrf.2.1.mp h1)
        · rintro (hfail | hbc)
          · exact (hnofail hfail).elim
          · exact hrf.2.1.mpr hbc
      | true =>
        rw [if_pos rfl] at h
        obtain ⟨hooksv, _, h⟩ := ebind_ok h
        obtain ⟨hs2, _, h⟩ := ebind_ok h
        obtain ⟨rp, _, h⟩ := ebind_ok h
        have hrf := rangeFinish_code _ _ _ _ _ h
        refine ⟨?_, hrf.2.2⟩
        constructor
        · intro h1
          exact Or.inr (hrf.2.1.mp h1)
        · rintro (hfail | hbc)
          · exact (hnofail hfail).elim
          · exact hrf.2.1.mpr hbc

/-- A cold fetch (no cached base, empty buffer) with require_data false still
performs the lookup, sets base / size / tail / offset, and returns status 1
because the buffer was never read. -/
theorem init_started_cold (env : RangeEnv) (r : RangeState) (length base B0 S0 : Int)
    (rdict : List (String × PyVal)) (bstr : String)
    (hsrc : r.source = SOURCE_TARGET) (hb : r.base = 0) (hdata : r.data = some [])
    (hg : env.getRange r.start_address = PyVal.dict rdict)
    (hbase : dictGet rdict "base" = some (.str bstr))
    (hB0 : pyIntHex bstr = .ok B0)
    (hsize : dictGet rdict "size" = some (.int S0)) :
    init_started env r length base false =
      .ok (1, {r with base := (if base > 0 then base else B0),
                      size := (if 0 < length ∧ length < S0 then length else S0),
                      tail := (if base > 0 then base else B0) +
                              (if 0 < length ∧ length < S0 then length else S0),
                      start_offset := r.start_address -
                              (if base > 0 then base else B0)},
           [REvent.getRange r.start_address]) := by
  unfold init_started
  rw [if_neg (by rw [hb]; rintro ⟨h1, -⟩; exact absurd h1 (by decide)), if_pos hsrc, hg]
  have hne : rdict.length ≠ 0 := by
    intro h0
    have h1 : rdict = [] := List.length_eq_zero.mp h0
    rw [h1] at hbase
    simp [dictGet] at hbase
  by_cases hov : base > 0 <;> by_cases hcl : 0 < length ∧ length < S0 <;>
    simp [pyLen, ebind, pyGetItem, hbase, hB0, hsize, hne, hov, hcl,
          rangeFinish, hdata]

/-- C8: on the fetch path (no cached-region short-circuit, target source),
`init_with_address` returns 1 exactly when the range lookup fails or the
resulting buffer is empty, and returns 0 only with a populated buffer; in
particular a cold fetch with require_data false returns 1 even though the lookup
succeeded and base, size, tail and offset were all set. -/
theorem init_status_codes :
    (∀ (env : RangeEnv) (r0 : RangeState) (address : PyVal)
       (length base : Int) (reqd : Bool) (code : Int) (r' : RangeState)
       (evs : List REvent),
       r0.source = SOURCE_TARGET →
       ¬(r0.base > 0 ∧ r0.base < parse_ptr address ∧ parse_ptr address < r0.tail) →
       init_with_address env r0 address length base reqd = .ok (code, r', evs) →
       ((code = 1 ↔ (rangeLookupFailed env (parse_ptr address) ∨
           r'.data = Option.none ∨ r'.data = some [])) ∧
        (code = 0 → ∃ d, r'.data = some d ∧ d ≠ []))) ∧
    (∀ (env : RangeEnv) (r0 : RangeState) (address : PyVal)
       (length base B0 S0 : Int) (rdict : List (String × PyVal)) (bstr : String),
       r0.source = SOURCE_TARGET → r0.base = 0 → r0.data = some [] →
       env.getRange (parse_ptr address) = PyVal.dict rdict →
       dictGet rdict "base" = some (.str bstr) →
       pyIntHex bstr = .ok B0 →
       dictGet rdict "size" = some (.int S0) →
       init_with_address env r0 address length base false =
         .ok (1, {r0 with
                    start_address := parse_ptr address,
                    base := (if base > 0 then base else B0),
                    size := (if 0 < length ∧ length < S0 then length else S0),
                    tail := (if base > 0 then base else B0) +
                      (if 0 < length ∧ length < S0 then length else S0),
                    start_offset := parse_ptr address -
                      (if base > 0 then base else B0)},
              [REvent.getRange (parse_ptr address)])) := by
  constructor
  · intro env r0 address length base reqd code r' evs hsrc hns h
    exact init_started_code env {r0 with start_address := parse_ptr address}
      length base reqd code r' evs hsrc hns h
  · intro env r0 address length base B0 S0 rdict bstr hsrc hb hdata hg hbase hB0 hsize
    exact init_started_cold env {r0 with start_address := parse_ptr address}
      length base B0 S0 rdict bstr hsrc hb hdata hg hbase hB0 hsize

/-- Witness for C8: the cold fetch of the demo region with require_data false
yields status 1 with base 0x1000, size 16, tail 0x1010, offset 4 and an empty
buffer (and, through the first part, status 1 is accounted for by the empty
buffer). -/
theorem init_status_codes_witness :
    init_with_address rangeEnvDemo {} (.int 4100) 0 0 false =
      .ok (1, { source := 0, base := 4096, size := 16, tail := 4112,
                data := some [], start_address := 4100, start_offset := 4 },
           [REvent.getRange 4100]) ∧
    ((1 : Int) = 1 ↔ (rangeLookupFailed rangeEnvDemo 4100 ∨
       (some [] : Option (List Nat)) = Option.none ∨
       (some [] : Option (List Nat)) = some [])) := by
  constructor
  · exact init_status_codes.2 rangeEnvDemo {} (.int 4100) 0 0 4096 16
      [("base", .str "1000"), ("size", .int 16)] "1000"
      rfl rfl rfl rfl rfl rfl rfl
  · exact (init_status_codes.1 rangeEnvDemo {} (.int 4100) 0 0 false 1
      { source := 0, base := 4096, size := 16, tail := 4112, data := some [],
        start_address := 4100, start_offset := 4 }
      [REvent.getRange 4100] rfl (by decide) (by rfl)).1

/-- C1 counterexample: `reinitialize` does not leave the device reference intact
(it sets it to None) and does not clear the context store or the watcher
registry. -/
theorem reinit_device_contexts_cex :
    ( reinitialize [] stSession).device = Option.none ∧
    ( reinitialize [] stSession).contexts = [("1", ctxEmpty)] ∧
    ( reinitialize [] stSession).watchers = [("0x1000", hookDemo)] :=
  ⟨rfl, rfl, rfl⟩

/-- C1 amended: `reinitialize` clears lifecycle, hook and pending-input state and
the active context id, and reloads the plugin list, but it sets the device
reference to None and leaves the context store, the watcher registry and the
cached arch / pointer-size / platform untouched; a subsequent set_context message
with the initial reason then re-establishes architecture, pointer size, platform
and java availability, with all hook registries empty but the prior contexts
still present. -/
theorem reinit_fresh_initial_context (pe : List String) (env : ScriptEnv)
    (st : DwarfState) (msg : PyMessage) (w J : String)
    (d0 : List (String × PyVal)) (va vp vn : PyVal)
    (hmsg : msg.payload = some w)
    (hsplit : pySplit w ":::" = ["set_context", J])
    (hJ : json_loads J = .ok (.dict d0))
    (hreason : dictGet d0 "reason" = some (.int (-1)))
    (harch : dictGet d0 "arch" = some va)
    (hplat : dictGet d0 "platform" = some vp)
    (hps : dictGet d0 "pointerSize" = some vn)
    (hjava : dictGet d0 "java" = some (.bool false))
    (hnm : dictGet d0 "modules" = Option.none)
    (hnr : dictGet d0 "ranges" = Option.none)
    (hnb : dictGet d0 "backtrace" = Option.none) :
    ( reinitialize pe st).device = Option.none ∧
    ( reinitialize pe st).contexts = st.contexts ∧
    ( reinitialize pe st).watchers = st.watchers ∧
    ( reinitialize pe st).hooks = [] ∧
    ( reinitialize pe st).java_hooks = [] ∧
    ( reinitialize pe st).native_on_loads = [] ∧
    ( reinitialize pe st).java_on_loads = [] ∧
    ( reinitialize pe st).context_tid = PyVal.int 0 ∧
    on_message env ( reinitialize pe st) msg =
      .ok ({ reinitialize pe st with
               arch := va, platform := vp, pointer_size := vn,
               java_available := PyVal.bool false},
           [Event.applyContext (.dict d0),
            Event.logEvent "injected into := 0"]) := by
  refine ⟨rfl, rfl, rfl, rfl, rfl, rfl, rfl, rfl, ?_⟩
  rw [on_message_dispatch env _ msg w hmsg (by rw [hsplit]; exact le_refl 2), hsplit]
  unfold dispatch
  simp only [List.getD]
  norm_num
  unfold handle_set_context on_apply_context
  simp only [hJ, ebind, pyContains, dictMember, hnm, hnr, hnb, pyGetItem, hreason,
             harch, hplat, hps, hjava, pyEqInt, pyTruthy]
  norm_num
  rfl

/-- Witness for the amended C1: reinitializing the live session and dispatching a
concrete initial-reason set_context message re-establishes arm64 / linux /
pointer size 8 while the pre-existing context for thread 1 survives. -/
theorem reinit_fresh_initial_context_witness :
    ( reinitialize [] stSession).device = Option.none ∧
    ( reinitialize [] stSession).contexts = stSession.contexts ∧
    ( reinitialize [] stSession).watchers = stSession.watchers ∧
    ( reinitialize [] stSession).hooks = [] ∧
    ( reinitialize [] stSession).java_hooks = [] ∧
    ( reinitialize [] stSession).native_on_loads = [] ∧
    ( reinitialize [] stSession).java_on_loads = [] ∧
    ( reinitialize [] stSession).context_tid = PyVal.int 0 ∧
    on_message envNull ( reinitialize [] stSession)
      ⟨some ("set_context:::\x7b\"reason\":-1,\"arch\":\"arm64\",\"platform\":\"linux\",\"pointerSize\":8,\"java\":false\x7d"), Option.none⟩ =
      .ok ({ reinitialize [] stSession with
               arch := PyVal.str "arm64", platform := PyVal.str "linux",
               pointer_size := PyVal.int 8, java_available := PyVal.bool false},
           [Event.applyContext (.dict [("reason", .int (-1)), ("arch", .str "arm64"),
              ("platform", .str "linux"), ("pointerSize", .int 8),
              ("java", .bool false)]),
            Event.logEvent "injected into := 0"]) :=
  reinit_fresh_initial_context [] envNull stSession
    ⟨some ("set_context:::\x7b\"reason\":-1,\"arch\":\"arm64\",\"platform\":\"linux\",\"pointerSize\":8,\"java\":false\x7d"), Option.none⟩
    "set_context:::\x7b\"reason\":-1,\"arch\":\"arm64\",\"platform\":\"linux\",\"pointerSize\":8,\"java\":false\x7d"
    "\x7b\"reason\":-1,\"arch\":\"arm64\",\"platform\":\"linux\",\"pointerSize\":8,\"java\":false\x7d"
    [("reason", .int (-1)), ("arch", .str "arm64"), ("platform", .str "linux"),
     ("pointerSize", .int 8), ("java", .bool false)]
    (PyVal.str "arm64") (PyVal.str "linux") (PyVal.int 8)
    rfl rfl rfl rfl rfl rfl rfl rfl rfl rfl rfl

/-- Pointwise description of a slice assignment that stays in bounds. -/
theorem sliceAssign_getElem (d : List Nat) (off : Nat) (org : List Nat)
    (hb : off + org.length ≤ d.length) (i : Nat) :
    (sliceAssign d off org)[i]? =
      if i < off then d[i]?
      else if i < off + org.length then org[i - off]?
      else d[i]? := by
  unfold sliceAssign
  have hto : (d.take off).length = off := by
    rw [List.length_take]
    omega
  rw [List.getElem?_append, List.getElem?_append, List.length_append, hto]
  by_cases h1 : i < off
  · rw [if_pos (by omega), if_pos h1, if_pos h1, List.getElem?_take, if_pos h1]
  · rw [if_neg h1]
    by_cases h2 : i < off + org.length
    · rw [if_pos h2, if_neg h1, if_pos h2]
    · rw [if_neg h2, if_neg h2, if_neg h1, List.getElem?_drop]
      congr 1
      omega

/-- Pointwise description of a contiguous read. -/
theorem listSlice_getElem (d : List Nat) (q n i : Nat) :
    (listSlice d q n)[i]? = if i < n then d[q + i]? else Option.none := by
  unfold listSlice
  rw [List.getElem?_take, List.getElem?_drop]

/-- An in-bounds slice assignment preserves the buffer length. -/
theorem sliceAssign_length (d : List Nat) (off : Nat) (org : List Nat)
    (hb : off + org.length ≤ d.length) :
    (sliceAssign d off org).length = d.length := by
  unfold sliceAssign
  rw [List.length_append, List.length_append, List.length_take, List.length_drop]
  omega

/-- Reading back an in-bounds slice assignment at its own window yields the
written bytes. -/
theorem listSlice_sliceAssign_self (d : List Nat) (off : Nat) (org : List Nat)
    (hb : off + org.length ≤ d.length) :
    listSlice (sliceAssign d off org) off org.length = org := by
  apply List.ext_getElem?
  intro i
  rw [listSlice_getElem]
  by_cases h : i < org.length
  · rw [if_pos h, sliceAssign_getElem d off org hb, if_neg (by omega),
        if_pos (by omega)]
    congr 1
    omega
  · rw [if_neg h, List.getElem?_eq_none (by omega)]

/-- A slice assignment does not change a disjoint window. -/
theorem listSlice_sliceAssign_frame (d : List Nat) (off : Nat) (org : List Nat)
    (q n : Nat) (hb : off + org.length ≤ d.length)
    (hdisj : q + n ≤ off ∨ off + org.length ≤ q) :
    listSlice (sliceAssign d off org) q n = listSlice d q n := by
  apply List.ext_getElem?
  intro i
  rw [listSlice_getElem, listSlice_getElem]
  by_cases h : i < n
  · rw [if_pos h, if_pos h, sliceAssign_getElem d off org hb]
    rcases hdisj with hd | hd
    · rw [if_pos (by omega)]
    · rw [if_neg (by omega), if_neg (by omega)]
  · rw [if_neg h, if_neg h]

/-- In-bounds patch sequences preserve the buffer length. -/
theorem applyPatches_length (ps : List (Nat × List Nat)) (d : List Nat)
    (hb : ∀ p ∈ ps, p.1 + p.2.length ≤ d.length) :
    (applyPatches d ps).length = d.length := by
  induction ps generalizing d with
  | nil => rfl
  | cons p rest ih =>
    obtain ⟨off, org⟩ := p
    have h0 : off + org.length ≤ d.length := hb _ (List.mem_cons_self _ _)
    unfold applyPatches
    rw [ih (sliceAssign d off org)
         (fun q hq => by
            rw [sliceAssign_length d off org h0]
            exact hb q (List.mem_cons_of_mem _ hq)),
        sliceAssign_length d off org h0]

/-- An in-bounds patch sequence whose patches all avoid a window leaves that
window unchanged. -/
theorem applyPatches_frame (ps : List (Nat × List Nat)) (d : List Nat) (q n : Nat)
    (hb : ∀ p ∈ ps, p.1 + p.2.length ≤ d.length)
    (hdisj : ∀ p ∈ ps, q + n ≤ p.1 ∨ p.1 + p.2.length ≤ q) :
    listSlice (applyPatches d ps) q n = listSlice d q n := by
  induction ps generalizing d with
  | nil => rfl
  | cons p rest ih =>
    obtain ⟨off, org⟩ := p
    have h0 : off + org.length ≤ d.length := hb _ (List.mem_cons_self _ _)
    unfold applyPatches
    rw [ih (sliceAssign d off org)
         (fun x hx => by
            rw [sliceAssign_length d off org h0]
            exact hb x (List.mem_cons_of_mem _ hx))
         (fun x hx => hdisj x (List.mem_cons_of_mem _ hx)),
        listSlice_sliceAssign_frame d off org q n h0
          (hdisj _ (List.mem_cons_self _ _))]

/-- After an in-bounds patch sequence, a patch that no later patch overlaps is
readable back at its window. -/
theorem applyPatches_read (ps1 : List (Nat × List Nat)) (off : Nat)
    (org : List Nat) (ps2 : List (Nat × List Nat)) (d : List Nat)
    (hb : ∀ p ∈ ps1 ++ (off, org) :: ps2, p.1 + p.2.length ≤ d.length)
    (hdisj : ∀ p ∈ ps2, p.1 + p.2.length ≤ off ∨ off + org.length ≤ p.1) :
    listSlice (applyPatches d (ps1 ++ (off, org) :: ps2)) off org.length = org := by
  induction ps1 generalizing d with
  | nil =>
    rw [List.nil_append]
    have h0 : off + org.length ≤ d.length :=
      hb _ (by rw [List.nil_append]; exact List.mem_cons_self _ _)
    unfold applyPatches
    rw [applyPatches_frame ps2 (sliceAssign d off org) off org.length
         (fun x hx => by
            rw [sliceAssign_length d off org h0]
            exact hb x (by rw [List.nil_append]; exact List.mem_cons_of_mem _ hx))
         (fun x hx => (hdisj x hx).symm),
        listSlice_sliceAssign_self d off org h0]
  | cons p rest ih =>
    obtain ⟨o2, g2⟩ := p
    have h0 : o2 + g2.length ≤ d.length := hb _ (List.mem_cons_self _ _)
    rw [List.cons_append]
    unfold applyPatches
    exact ih (sliceAssign d o2 g2)
      (fun x hx => by
         rw [sliceAssign_length d o2 g2 h0]
         exact hb x (List.mem_cons_of_mem _ hx))

/-- A loop iteration of the hook-patching loop on a well-formed registry entry
never raises and performs exactly the patch described by `hookPatch`. -/
theorem patchOne_spec (r : RangeState) (hv : PyVal) (d : List Nat)
    (hd : r.data = some d) (hwf : hookEntryWF hv) :
    patchOne r hv = .ok (match hookPatch r.base r.tail hv with
      | some (off, org) => {r with data := some (sliceAssign d off org)}
      | Option.none => r) := by
  obtain ⟨np, hnp, hrest⟩ := hwf
  unfold patchOne hookPatch
  simp only [hnp, ebind]
  by_cases h1 : parse_ptr np ≠ 1
  · obtain ⟨bs, hbs, hrest2⟩ := hrest h1
    simp only [if_pos h1, hbs, ebind]
    by_cases h2 : pyTruthy bs = true
    · obtain ⟨s, org, hseq, horg⟩ := hrest2 h2
      subst hseq
      simp only [if_pos h2]
      by_cases h3 : r.base < (if parse_ptr np % 2 ≠ 0 then parse_ptr np - 1
                              else parse_ptr np) ∧
                    (if parse_ptr np % 2 ≠ 0 then parse_ptr np - 1
                     else parse_ptr np) < r.tail
      · simp only [if_pos h3]
        unfold patch_bytes
        simp only [hd, horg]
      · simp only [if_neg h3]
    · simp only [if_neg h2]
  · simp only [if_neg h1]

/-- The hook-patching loop of `Range.init_with_address` over a registry of
well-formed entries never raises and leaves the cached bytes equal to the fetched
bytes with every applicable hook patch applied in registry order. -/
theorem patchHooks_spec (hs : List (String × PyVal)) (r : RangeState)
    (d : List Nat) (hd : r.data = some d)
    (hwf : ∀ p ∈ hs, hookEntryWF p.2) :
    patchHooks r hs =
      .ok {r with data := some (applyPatches d
        (hs.filterMap (fun p => hookPatch r.base r.tail p.2)))} := by
  induction hs generalizing r d with
  | nil =>
    show Except.ok r = _
    simp only [List.filterMap_nil, applyPatches]
    rw [← hd]
  | cons p rest ih =>
    obtain ⟨k, hv⟩ := p
    unfold patchHooks
    rw [patchOne_spec r hv d hd (hwf _ (List.mem_cons_self _ _))]
    cases hx : hookPatch r.base r.tail hv with
    | none =>
      simp only [ebind]
      rw [ih r d hd (fun q hq => hwf q (List.mem_cons_of_mem _ hq))]
      simp only [List.filterMap_cons, hx]
    | some po =>
      obtain ⟨off, org⟩ := po
      simp only [ebind]
      rw [ih {r with data := some (sliceAssign d off org)} (sliceAssign d off org)
           rfl (fun q hq => hwf q (List.mem_cons_of_mem _ hq))]
      simp only [List.filterMap_cons, hx, applyPatches]

/-- A default fetch (no length clamp, no base override) with require_data on a
cold range: the region is looked up, its bytes are read, every applicable hook
patch is applied in registry order, and the call returns 0 with the patched
buffer cached. -/
theorem init_started_hooks (env : RangeEnv) (r : RangeState) (B0 S0 : Int)
    (rdict : List (String × PyVal)) (bstr : String) (d0 : List Nat)
    (hs : List (String × PyVal))
    (hsrc : r.source = SOURCE_TARGET) (hb : r.base = 0)
    (hg : env.getRange r.start_address = PyVal.dict rdict)
    (hbase : dictGet rdict "base" = some (.str bstr))
    (hB0 : pyIntHex bstr = .ok B0)
    (hsize : dictGet rdict "size" = some (.int S0))
    (hread : env.readMemory B0 S0 = some d0)
    (hjson : json_loads env.hooksJson = .ok (.dict hs))
    (hwf : ∀ p ∈ hs, hookEntryWF p.2)
    (hd0 : d0 ≠ [])
    (hbounds : ∀ p ∈ hs.filterMap (fun q => hookPatch B0 (B0 + S0) q.2),
       p.1 + p.2.length ≤ d0.length) :
    init_started env r 0 0 true =
      .ok (0, {r with base := B0, size := S0, tail := B0 + S0,
                      start_offset := r.start_address - B0,
                      data := some (applyPatches d0
                        (hs.filterMap (fun p => hookPatch B0 (B0 + S0) p.2)))},
           [REvent.getRange r.start_address, REvent.readMemory B0 S0,
            REvent.hooksQuery]) := by
  have hlen : (applyPatches d0
      (hs.filterMap (fun q => hookPatch B0 (B0 + S0) q.2))).length = d0.length :=
    applyPatches_length _ d0 hbounds
  have hne2 : applyPatches d0
      (hs.filterMap (fun q => hookPatch B0 (B0 + S0) q.2)) ≠ [] := by
    intro hnil
    rw [hnil] at hlen
    exact hd0 (List.length_eq_zero.mp hlen.symm)
  have hP := patchHooks_spec hs
    {r with base := B0, size := S0, tail := B0 + S0,
            start_offset := r.start_address - B0, data := some d0} d0 rfl hwf
  have hne : rdict.length ≠ 0 := by
    intro h0
    have h1 : rdict = [] := List.length_eq_zero.mp h0
    rw [h1] at hbase
    simp [dictGet] at hbase
  unfold init_started
  rw [if_neg (by rw [hb]; rintro ⟨h1, -⟩; exact absurd h1 (by decide)), if_pos hsrc, hg]
  simp only [pyLen, ebind, pyGetItem, hbase, hB0, hsize, hne, if_neg hne,
             show ¬((0:Int) > 0) by decide, if_false, ite_false,
             show ¬((0:Int) < 0 ∧ (0:Int) < S0) by simp, hread, hjson, if_true]
  simp [hread, hjson, hP, rangeFinish, hne2]

/-- C6 counterexample: the live registry of `rangeEnvHookAtBase` holds exactly one
native hook, at address 0x1000 with known original bytes ff ee, and the fetch of
the region [0x1000, 0x1008) with require_data succeeds with status 0 — yet the
returned buffer still holds the trap bytes 00 01 at the hook's in-range offset 0,
because the patch condition `base < address` excludes a hook sitting exactly at
the region base. -/
theorem range_hook_at_base_not_restored_cex :
    json_loads rangeEnvHookAtBase.hooksJson =
      .ok (.dict [("0x1000", .dict [("nativePtr", .str "0x1000"),
                                    ("bytes", .str "ffee")])]) ∧
    parse_ptr (.str "0x1000") = 4096 ∧
    bytesFromHex "ffee" = some [255, 238] ∧
    init_with_address rangeEnvHookAtBase {} (.int 4096) 0 0 true =
      .ok (0, {start_address := 4096, base := 4096, size := 8, tail := 4104,
               start_offset := 0, data := some [0, 1, 2, 3, 4, 5, 6, 7]},
           [REvent.getRange 4096, REvent.readMemory 4096 8, REvent.hooksQuery]) ∧
    listSlice [0, 1, 2, 3, 4, 5, 6, 7] 0 2 ≠ [255, 238] :=
  ⟨rfl, rfl, rfl, rfl, by decide⟩

/-- C6 (amended): a default require_data fetch on a cold range reads the region
bytes and returns 0 with every applicable hook patch applied in registry order;
every native hook with known original bytes whose thumb-stripped address lies
strictly between the fetched base and tail (a hook exactly at the base is
skipped), whose patch window fits in the buffer, and whose window no later
in-range patch overlaps, appears restored: the returned buffer holds its original
bytes at its offset. -/
theorem range_hooks_restored (env : RangeEnv) (r0 : RangeState) (address : PyVal)
    (B0 S0 : Int) (rdict : List (String × PyVal)) (bstr : String)
    (d0 : List Nat) (hs : List (String × PyVal))
    (hsrc : r0.source = SOURCE_TARGET) (hb : r0.base = 0)
    (hg : env.getRange (parse_ptr address) = PyVal.dict rdict)
    (hbase : dictGet rdict "base" = some (.str bstr))
    (hB0 : pyIntHex bstr = .ok B0)
    (hsize : dictGet rdict "size" = some (.int S0))
    (hread : env.readMemory B0 S0 = some d0)
    (hjson : json_loads env.hooksJson = .ok (.dict hs))
    (hwf : ∀ p ∈ hs, hookEntryWF p.2)
    (hd0 : d0 ≠ [])
    (hbounds : ∀ p ∈ hs.filterMap (fun q => hookPatch B0 (B0 + S0) q.2),
       p.1 + p.2.length ≤ d0.length) :
    init_with_address env r0 address 0 0 true =
      .ok (0, {r0 with start_address := parse_ptr address,
                       base := B0, size := S0, tail := B0 + S0,
                       start_offset := parse_ptr address - B0,
                       data := some (applyPatches d0
                         (hs.filterMap (fun p => hookPatch B0 (B0 + S0) p.2)))},
           [REvent.getRange (parse_ptr address), REvent.readMemory B0 S0,
            REvent.hooksQuery]) ∧
    (∀ ps1 off org ps2,
      hs.filterMap (fun p => hookPatch B0 (B0 + S0) p.2) =
        ps1 ++ (off, org) :: ps2 →
      (∀ p ∈ ps2, p.1 + p.2.length ≤ off ∨ off + org.length ≤ p.1) →
      listSlice (applyPatches d0
        (hs.filterMap (fun p => hookPatch B0 (B0 + S0) p.2))) off org.length =
        org) := by
  constructor
  · exact init_started_hooks env {r0 with start_address := parse_ptr address}
      B0 S0 rdict bstr d0 hs hsrc hb hg hbase hB0 hsize hread hjson hwf hd0 hbounds
  · intro ps1 off org ps2 hdec hdisj
    rw [hdec]
    exact applyPatches_read ps1 off org ps2 d0
      (fun p hp => hbounds p (hdec.symm ▸ hp)) hdisj

/-- Witness for C6: fetching [0x1000, 0x1008) from `rangeEnvHooks` (one thumb
native hook at 0x1003 with bytes ff ee, one java hook to skip) returns 0 with the
buffer patched at the stripped offset 2, and the hook's bytes read back from the
buffer. -/
theorem range_hooks_restored_witness :
    init_with_address rangeEnvHooks {} (.int 4096) 0 0 true =
      .ok (0, {start_address := 4096, base := 4096, size := 8, tail := 4104,
               start_offset := 0, data := some [0, 1, 255, 238, 4, 5, 6, 7]},
           [REvent.getRange 4096, REvent.readMemory 4096 8, REvent.hooksQuery]) ∧
    listSlice [0, 1, 255, 238, 4, 5, 6, 7] 2 2 = [255, 238] := by
  have h := range_hooks_restored rangeEnvHooks {} (.int 4096) 4096 8
    [("base", .str "1000"), ("size", .int 8)] "1000" [0, 1, 2, 3, 4, 5, 6, 7]
    [("0x1003", .dict [("nativePtr", .str "0x1003"), ("bytes", .str "ffee")]),
     ("j", .dict [("nativePtr", .str "0x1"), ("bytes", .str "aa")])]
    rfl rfl rfl rfl rfl rfl rfl rfl
    (by
      intro p hp
      simp only [List.mem_cons, List.not_mem_nil, or_false] at hp
      rcases hp with rfl | rfl
      · exact ⟨.str "0x1003", rfl, fun _ => ⟨.str "ffee", rfl,
          fun _ => ⟨"ffee", [255, 238], rfl, rfl⟩⟩⟩
      · exact ⟨.str "0x1", rfl, fun h1 => absurd rfl h1⟩)
    (by decide) (by decide)
  obtain ⟨h1, h2⟩ := h
  exact ⟨h1, h2 [] 2 [255, 238] [] rfl (by decide)⟩
